import Mathlib

/-!
Verification of the checklist → XLSForm compiler.

This file shallowly embeds the core of the `mentorship-xls-form` code base:
the typed XLSForm/XPath expression algebra and its rendering
(`lib/xls_forms/expressions/`), the scoring-rule DSL listener and the
per-question scoring fold (`lib/antlr4/__init__.py`), and the
question/section/checklist/facility serializers
(`lib/serializers/xls_form/__init__.py`), together with the domain model
(`core/domain.py`).  Python `Mapping` values whose code paths only ever
iterate `.values()` are embedded as lists; `None` and the empty collection
are identified where the source only tests truthiness.

The generated ANTLR lexer/parser of the scoring-rule grammar is not part of
the sources (only the generated listener base class is); the grammar-level
pieces below are modelled from the spec (§4.B/§6.2) and are marked
`Modelled from the spec:` in their doc comments.  The embedding of the rule
grammar covers the `if_bool` and comparison rule forms; the count, range and
selection rule forms (and the `int()` operand wrapping used only by
`COUNT`/`MULTI` comparison operands) are outside the modelled fragment and
are mapped to a distinguished `unmodelled` error.
-/

deriving instance DecidableEq for Except

namespace Sghi

/-- Question kinds, from `core/domain.py` (`QuestionType`). -/
inductive QuestionType where
  | BOOL | CHOICE | COUNT | DEN | MULTI | NUM | PERC | RATE | SELECT | TEXT
deriving DecidableEq

/-- Answer types, from `core/domain.py` (`AnswerType`). -/
inductive AnswerType where
  | BOOLEAN | FLOAT | INTEGER_ZERO_OR_POSITIVE | STRING
deriving DecidableEq

/-- A question in a mentorship checklist, from `core/domain.py` (`Question`).
`options_set` and `sub_questions` are embedded as lists ([] standing for
Python's `None` or an empty collection: the source only ever tests their
truthiness and iterates `.values()`, so the distinction is unobservable). -/
inductive Question where
  | mk (id : String) (label : String) (question_type : QuestionType)
      (answer_type : AnswerType) (options_set : List String)
      (prompt : Option String) (scoring_logic : Option String)
      (sub_questions : List Question) (na_option : Bool)
      (display_numbering : Option Int) : Question

def Question.id : Question → String
  | .mk i _ _ _ _ _ _ _ _ _ => i

def Question.label : Question → String
  | .mk _ l _ _ _ _ _ _ _ _ => l

def Question.question_type : Question → QuestionType
  | .mk _ _ t _ _ _ _ _ _ _ => t

def Question.answer_type : Question → AnswerType
  | .mk _ _ _ a _ _ _ _ _ _ => a

def Question.options_set : Question → List String
  | .mk _ _ _ _ o _ _ _ _ _ => o

def Question.prompt : Question → Option String
  | .mk _ _ _ _ _ p _ _ _ _ => p

def Question.scoring_logic : Question → Option String
  | .mk _ _ _ _ _ _ s _ _ _ => s

def Question.sub_questions : Question → List Question
  | .mk _ _ _ _ _ _ _ s _ _ => s

def Question.na_option : Question → Bool
  | .mk _ _ _ _ _ _ _ _ n _ => n

def Question.display_numbering : Question → Option Int
  | .mk _ _ _ _ _ _ _ _ _ d => d

/-- A section in a mentorship checklist, from `core/domain.py` (`Section`).
`questions` is embedded as a list (see `Question`). -/
structure Section where
  id : String
  title : String
  standard : Option String := none
  instructions : Option String := none
  na_option : Bool := false
  required : Bool := true
  questions : List Question := []

/-- A mentorship checklist, from `core/domain.py` (`MentorshipChecklist`). -/
structure MentorshipChecklist where
  id : String
  name : String
  sections : List Section := []

/-- A health facility, from `core/domain.py` (`Facility`). -/
structure Facility where
  name : String
  mfl_code : String
  county : String
  sub_county : String
  ward : String
deriving DecidableEq

/-- The numeric payload of a `Number` literal (`lib/.../literals.py`).  The
source stores a Python `int | float`; the floats that actually occur are
`float(txt)` of a `DIGITS` token, so they are integral and (for the digit
strings the DSL uses) render under `str()` as the integer followed by
`.0`. -/
inductive PyNum where
  | pyInt (n : Int)
  | pyFloat (n : Int)
deriving DecidableEq

/-- Rendering of a `Number`/`Int` literal value, following Python `str()` on
the stored `int` or integral `float`. -/
def PyNum.render : PyNum → String
  | .pyInt n => toString n
  | .pyFloat n => toString n ++ ".0"

/-- The XLSForm expression AST: the sum of the expression classes of
`lib/xls_forms/expressions/` that the serializers and the embedded scoring
rules construct (`literals.py`, `base.py`, `operators.py`, `functions.py`),
plus `stringF`, the `string` helper of the package aggregator module (that
module is not among the sources; see `evalE.stringF`). -/
inductive Expr where
  | boolLit (b : Bool)
  | intLit (n : Int)
  | numLit (v : PyNum)
  | strLit (s : String)
  | varE (question_name : String)
  | brkt (e : Expr)
  | addE (l r : Expr)
  | divE (l r : Expr)
  | mulE (l r : Expr)
  | subE (l r : Expr)
  | andE (l r : Expr)
  | orE (l r : Expr)
  | eqE (l r : Expr)
  | neE (l r : Expr)
  | geE (l r : Expr)
  | gtE (l r : Expr)
  | leE (l r : Expr)
  | ltE (l r : Expr)
  | notF (a : Expr)
  | selectedF (arr s : Expr)
  | ifF (c t e : Expr)
  | coalesceF (a b : Expr)
  | numberF (e : Expr)
  | roundF (x p : Expr)
  | stringF (e : Expr)
deriving DecidableEq

/-- Rendering to XPath text: the union of the `__eval__` methods of
`lib/xls_forms/expressions/`.  A `Boolean` literal renders `yes`/`no`
(`literals.py`, `Boolean.__eval__`); binary operators render with one space
around the keyword (`operators.py`); `Variable` renders the cell
substitution; function nodes render as calls (`functions.py`).

`stringF` is the `string` helper re-exported by the expressions package
aggregator, a module that is not among the sources.  Modelled from the
spec: §8 S6 shows `string(var(q))` rendering as the bare `${q}`, so
`stringF` is embedded as a transparent (identity-rendering) wrapper. -/
def evalE : Expr → String
  | .boolLit b => cond b "yes" "no"
  | .intLit n => toString n
  | .numLit v => v.render
  | .strLit s => "'" ++ s ++ "'"
  | .varE q => "$\x7b" ++ q ++ "\x7d"
  | .brkt e => "(" ++ evalE e ++ ")"
  | .addE l r => evalE l ++ " + " ++ evalE r
  | .divE l r => evalE l ++ " div " ++ evalE r
  | .mulE l r => evalE l ++ " * " ++ evalE r
  | .subE l r => evalE l ++ " - " ++ evalE r
  | .andE l r => evalE l ++ " and " ++ evalE r
  | .orE l r => evalE l ++ " or " ++ evalE r
  | .eqE l r => evalE l ++ " = " ++ evalE r
  | .neE l r => evalE l ++ " != " ++ evalE r
  | .geE l r => evalE l ++ " >= " ++ evalE r
  | .gtE l r => evalE l ++ " > " ++ evalE r
  | .leE l r => evalE l ++ " <= " ++ evalE r
  | .ltE l r => evalE l ++ " < " ++ evalE r
  | .notF a => "not(" ++ evalE a ++ ")"
  | .selectedF arr s => "selected(" ++ evalE arr ++ ", " ++ evalE s ++ ")"
  | .ifF c t e => "if(" ++ evalE c ++ ", " ++ evalE t ++ ", " ++ evalE e ++ ")"
  | .coalesceF a b => "coalesce(" ++ evalE a ++ ", " ++ evalE b ++ ")"
  | .numberF e => "number(" ++ evalE e ++ ")"
  | .roundF x p => "round(" ++ evalE x ++ ", " ++ evalE p ++ ")"
  | .stringF e => evalE e

/-- Python `str.replace` for a single-character pattern: every occurrence of
`old` becomes the character list `new`.  (For one-character patterns,
Python's left-to-right non-overlapping replacement is exactly per-character
substitution.)  Used to embed `escape_markdown` and
`org_unit_name_as_list_name` in a kernel-computable way. -/
def replaceChar (s : String) (old : Char) (new : List Char) : String :=
  ⟨(s.data.map (fun c => if c = old then new else [c])).flatten⟩

/-- From `lib/serializers/xls_form/__init__.py` (`escape_markdown`):
`text.replace("_", "\\_").replace("*", "\\*").replace("#", "\\#")`. -/
def escape_markdown (text : String) : String :=
  replaceChar (replaceChar (replaceChar text '_' ['\\', '_']) '*' ['\\', '*']) '#' ['\\', '#']

/-- From `lib/serializers/xls_form/__init__.py` (`org_unit_name_as_list_name`):
`org_unit_name.replace(" ", "_").lower()`.  Lower-casing is embedded
per-character with `Char.toLower` (the org-unit names in scope are ASCII). -/
def org_unit_name_as_list_name (org_unit_name : String) : String :=
  ⟨(replaceChar org_unit_name ' ' ['_']).data.map Char.toLower⟩

/-- From `lib/serializers/xls_form/__init__.py` (`build_select_option_name`):
`f"{question_id}_{option_index}"`. -/
def build_select_option_name (question_id : String) (option_index : Nat) : String :=
  question_id ++ "_" ++ toString option_index

/-- Python `s.split(";")` (single-character separator), as used by
`parse_question_scoring_logic`.  Kernel-computable equivalent of
`String.splitOn` for a one-character separator. -/
def splitOnChar (s : String) (sep : Char) : List String :=
  (s.data.foldr
    (fun c acc =>
      match acc with
      | [] => [[c]]
      | h :: t => if c = sep then [] :: acc else (c :: h) :: t)
    [[]]).map (fun cs => ⟨cs⟩)

/-- Errors of the parsing and lowering pipeline (`lib/antlr4/__init__.py`
and the `ensure_*`/`assert` guards of the serializers).  `invalidRuleSet`
is the error the spec's §7 calls `InvalidRuleSet`: the `AssertionError`
that `parse_question_scoring_logic` raises for a single-rule question with
no outer else; it names the offending question id.  `parseError` stands for
`ParseError` (including lexer/parser syntax errors surfaced through
`XLSFormErrorListener`), `metaSyntaxError` for
`MetadataExpressionSyntaxError`.  `ensureFailure` stands for the
`ensure_predicate`/`ensure_not_none` guard failures of the serializers and
`assertionFailure` for a failing Python `assert`.  `unmodelled` marks the
rule forms outside the embedded fragment (see the file header). -/
inductive PError where
  | parseError (question_id : String)
  | metaSyntaxError (question_id : String)
  | invalidRuleSet (question_id : String)
  | ensureFailure (msg : String)
  | assertionFailure
  | unmodelled
deriving DecidableEq

/-- The four score colours of the DSL (`CEE_SCORE` token of the grammar). -/
inductive CeeScore where
  | gray | green | red | yellow
deriving DecidableEq

/-- From `lib/antlr4/__init__.py` (`_meta_cee_score_to_xls_form` together
with the `CEE_SCORE_*` constants): the capitalised score keyword becomes a
lower-case string literal expression. -/
def meta_cee_score_to_xls_form : CeeScore → Expr
  | .gray => .strLit "gray"
  | .green => .strLit "green"
  | .red => .strLit "red"
  | .yellow => .strLit "yellow"

/-- Modelled from the spec: the comparison operators of the grammar's
`CMP_OP` token (§4.B): `>` `>=`/`≥` `=<`/`≤` `<`. -/
inductive CmpOp where
  | geOp | gtOp | leOp | ltOp
deriving DecidableEq

/-- Modelled from the spec: the `and`/`or` connectives of `cmp_expr`. -/
inductive BoolOp where
  | andOp | orOp
deriving DecidableEq

/-- Modelled from the spec: one `term` of `cmp_expr` — a comparison
operator, a `DIGITS` token, and an optional `%` suffix (§4.B). -/
structure CmpTerm where
  op : CmpOp
  digits : Nat
  percent : Bool
deriving DecidableEq

/-- Modelled from the spec: the parse tree of a `cmp_expr`.  ANTLR's
left-recursive alternative rule yields a left-associated tree whose right
operand of every compound node is a single term, which is the shape the
listener's cache logic relies on. -/
inductive CmpTree where
  | atom (t : CmpTerm)
  | comp (l : CmpTree) (op : BoolOp) (r : CmpTerm)
deriving DecidableEq

/-- Modelled from the spec: a parsed rule of the scoring DSL (§4.B).
`otherRule` covers the recognised but unembedded rule forms (`if_count`,
`if_range`, `if_select`). -/
inductive Rule where
  | ifBool (y : Bool) (score : CeeScore)
  | ifCmp (tree : CmpTree) (score : CeeScore)
  | otherRule
deriving DecidableEq

/-- Modelled from the spec: the DSL's tokens (§4.B/§6.2). -/
inductive Tok where
  | kwIf | kwAnd | kwOr | kwSelect
  | boolTok (y : Bool)
  | scoreTok (s : CeeScore)
  | digitsTok (n : Nat)
  | pctTok | geTok | gtTok | leTok | ltTok | eqTok | dashTok
deriving DecidableEq

/-- Keyword lookup for a maximal letter run (the grammar's tokens are
case-sensitive, §6.2). -/
def keywordTok (w : String) : Option Tok :=
  if w = "If" then some .kwIf
  else if w = "and" then some .kwAnd
  else if w = "or" then some .kwOr
  else if w = "select" then some .kwSelect
  else if w = "Y" then some (.boolTok true)
  else if w = "N" then some (.boolTok false)
  else if w = "Gray" then some (.scoreTok .gray)
  else if w = "Green" then some (.scoreTok .green)
  else if w = "Red" then some (.scoreTok .red)
  else if w = "Yellow" then some (.scoreTok .yellow)
  else none

/-- Value of a digit run, as Python `float`/`int` would read it. -/
def natOfDigits (ds : List Char) : Nat :=
  ds.foldl (fun n c => n * 10 + (c.toNat - '0'.toNat)) 0

/-- Modelled from the spec: the lexer.  Whitespace is skipped between
tokens; `>=`, `≥`, `=<` and `≤` are single tokens; `%` binds as its own
token; maximal digit and letter runs form `DIGITS` and keyword tokens
(§6.2).  The fuel argument only bounds the recursion; `tokenizeAux` is run
with fuel equal to the input length, and every step consumes at least one
character, so the bound is never the reason a lex fails. -/
def tokenizeAux : Nat → List Char → Option (List Tok)
  | _, [] => some []
  | 0, _ :: _ => none
  | fuel + 1, c :: rest =>
    if c = ' ' ∨ c = '\t' ∨ c = '\n' ∨ c = '\r' then tokenizeAux fuel rest
    else if c = '%' then (Tok.pctTok :: ·) <$> tokenizeAux fuel rest
    else if c = '-' then (Tok.dashTok :: ·) <$> tokenizeAux fuel rest
    else if c = '≥' then (Tok.geTok :: ·) <$> tokenizeAux fuel rest
    else if c = '≤' then (Tok.leTok :: ·) <$> tokenizeAux fuel rest
    else if c = '<' then (Tok.ltTok :: ·) <$> tokenizeAux fuel rest
    else if c = '>' then
      match rest with
      | '=' :: r => (Tok.geTok :: ·) <$> tokenizeAux fuel r
      | _ => (Tok.gtTok :: ·) <$> tokenizeAux fuel rest
    else if c = '=' then
      match rest with
      | '<' :: r => (Tok.leTok :: ·) <$> tokenizeAux fuel r
      | _ => (Tok.eqTok :: ·) <$> tokenizeAux fuel rest
    else if c.isDigit then
      (Tok.digitsTok (natOfDigits ((c :: rest).takeWhile Char.isDigit)) :: ·) <$>
        tokenizeAux fuel ((c :: rest).dropWhile Char.isDigit)
    else if c.isAlpha then
      match keywordTok ⟨(c :: rest).takeWhile Char.isAlpha⟩ with
      | some t => (t :: ·) <$> tokenizeAux fuel ((c :: rest).dropWhile Char.isAlpha)
      | none => none
    else none

/-- Modelled from the spec: lex a rule string (§6.2). -/
def tokenizeRule (s : String) : Option (List Tok) :=
  tokenizeAux s.length s.data

/-- Modelled from the spec: parse one `term` of `cmp_expr` (§4.B). -/
def parseTerm : List Tok → Option (CmpTerm × List Tok)
  | t :: .digitsTok n :: .pctTok :: r =>
    match t with
    | .geTok => some (⟨.geOp, n, true⟩, r)
    | .gtTok => some (⟨.gtOp, n, true⟩, r)
    | .leTok => some (⟨.leOp, n, true⟩, r)
    | .ltTok => some (⟨.ltOp, n, true⟩, r)
    | _ => none
  | t :: .digitsTok n :: r =>
    match t with
    | .geTok => some (⟨.geOp, n, false⟩, r)
    | .gtTok => some (⟨.gtOp, n, false⟩, r)
    | .leTok => some (⟨.leOp, n, false⟩, r)
    | .ltTok => some (⟨.ltOp, n, false⟩, r)
    | _ => none
  | _ => none

/-- Modelled from the spec: the `(('and'|'or') term)*` tail of `cmp_expr`,
left-associated (§4.B).  Fuel bounds the recursion by the token count. -/
def parseChain : Nat → CmpTree → List Tok → Option (CmpTree × List Tok)
  | 0, acc, toks =>
    match toks with
    | .kwAnd :: _ => none
    | .kwOr :: _ => none
    | _ => some (acc, toks)
  | fuel + 1, acc, toks =>
    match toks with
    | .kwAnd :: r =>
      (parseTerm r).bind fun p => parseChain fuel (.comp acc .andOp p.1) p.2
    | .kwOr :: r =>
      (parseTerm r).bind fun p => parseChain fuel (.comp acc .orOp p.1) p.2
    | _ => some (acc, toks)

/-- Modelled from the spec: parse one rule (§4.B).  The count, range and
selection forms are recognised by their leading tokens and mapped to
`Rule.otherRule`. -/
def parseRuleToks (toks : List Tok) : Option Rule :=
  match toks with
  | .kwIf :: .boolTok y :: .eqTok :: .scoreTok s :: [] => some (.ifBool y s)
  | .kwIf :: .digitsTok _ :: _ => some .otherRule
  | .kwIf :: .kwSelect :: _ => some .otherRule
  | .kwIf :: rest =>
    match parseTerm rest with
    | some (t, r) =>
      match parseChain r.length (.atom t) r with
      | some (tree, .eqTok :: .scoreTok s :: []) => some (.ifCmp tree s)
      | _ => none
    | none => none
  | _ => none

/-- The (condition, then) pair a listener walk produces, from
`lib/antlr4/__init__.py` (`ListenerWalkResults`). -/
structure WalkResults where
  conditional_expr : Expr
  then_expr : Expr
deriving DecidableEq

/-- The mutable listener state during a walk, from `lib/antlr4/__init__.py`
(`ScoringLogicListener`): the current conditional expression and the
expression cache used for compound comparisons. -/
structure WState where
  cond : Option Expr
  cache : List Expr
deriving DecidableEq

/-- The walk over one comparison atom: `enterComparison_expression`
followed by the non-compound branch of `exitComparison_expression`
(`lib/antlr4/__init__.py` lines 214–231 and 288–380).  The enter callback
skips its `%` type check when a conditional expression and a non-empty
cache are both present; in that same state the exit callback would crash
looking for an `AND`/`OR` token on an atom, embedded as
`assertionFailure` (the state is unreachable in a well-formed walk).  The
`COUNT`/`MULTI` operand shapes use the source's `int()` wrapper, whose
rendering is outside the embedded fragment (see the file header). -/
def walkAtom (q : Question) (st : WState) (t : CmpTerm) : Except PError WState :=
  if st.cond.isSome ∧ st.cache ≠ [] then
    .error .assertionFailure
  else if t.percent ∧ q.question_type ≠ .PERC then
    .error (.metaSyntaxError q.id)
  else if q.question_type = .COUNT ∨ q.question_type = .MULTI then
    .error .unmodelled
  else
    let left : Expr := .numberF (.varE q.id)
    let right : Expr := .numLit (.pyFloat t.digits)
    let cache' := st.cache ++ (match st.cond with | some c => [c] | none => [])
    if q.question_type = .PERC ∧ ¬t.percent then
      .error (.metaSyntaxError q.id)
    else
      let cond' : Expr :=
        match t.op with
        | .geOp => .geE left right
        | .gtOp => .gtE left right
        | .leOp => .leE left right
        | .ltOp => .ltE left right
      .ok ⟨some cond', cache'⟩

/-- The compound branch of `exitComparison_expression`
(`lib/antlr4/__init__.py` lines 292–316): the freshly built conditional is
combined with the cache top (`self._conditional_expr & self._expr_cache[-1]`,
fresh term on the left), and the cache is popped.  Outside the
compound state the handler would read the absent `DIGITS` token of a
compound node, embedded as `assertionFailure` (unreachable). -/
def exitCompound (st : WState) (op : BoolOp) : Except PError WState :=
  match st.cond, st.cache.getLast? with
  | some c, some cacheTop =>
    let cond' : Expr :=
      match op with
      | .andOp => .andE c cacheTop
      | .orOp => .orE c cacheTop
    .ok ⟨some cond', st.cache.dropLast⟩
  | _, _ => .error .assertionFailure

/-- The listener walk over a `cmp_expr` parse tree (depth-first, children
before the exit callback of their parent, mirroring ANTLR's
`ParseTreeWalker`). -/
def walkCmpTree (q : Question) : WState → CmpTree → Except PError WState
  | st, .atom t => walkAtom q st t
  | st, .comp l op r => do
    let st1 ← walkCmpTree q st l
    let st2 ← walkAtom q st1 r
    exitCompound st2 op

/-- From `lib/antlr4/__init__.py` (`_scoring_logic_txt_to_expr` together
with the `ScoringLogicListener` callbacks): lex and parse one rule string,
then walk it.  For `if_bool`, `enterIf_bool_literal_equals_score` checks
the question kind (raising `ParseError` through
`_ensure_question_is_of_type`) and `exitIf_bool_literal_equals_score`
builds the inverse condition: the `Y` literal yields
`not(selected(${q}, 'no'))` and `N` yields `not(selected(${q}, 'yes'))`
(`META_NO if txt == "Y" else META_YES`).  For comparison rules the walk
runs over the tree and `exitIf_comparison_equals_score` pairs the final
conditional with the score. -/
def scoring_logic_txt_to_expr (q : Question) (txt : String) :
    Except PError WalkResults :=
  match tokenizeRule txt with
  | none => .error (.parseError q.id)
  | some toks =>
    match parseRuleToks toks with
    | none => .error (.parseError q.id)
    | some (.ifBool y s) =>
      if q.question_type ≠ .BOOL then .error (.parseError q.id)
      else
        .ok ⟨.notF (.selectedF (.varE q.id) (.strLit (if y then "no" else "yes"))),
          meta_cee_score_to_xls_form s⟩
    | some (.ifCmp tree s) => do
      let st ← walkCmpTree q ⟨none, []⟩ tree
      match st.cond with
      | some c => .ok ⟨c, meta_cee_score_to_xls_form s⟩
      | none => .error .assertionFailure
    | some .otherRule => .error .unmodelled

/-- From `lib/antlr4/__init__.py` (`parse_question_scoring_logic`): split
the question's scoring string on `;`, compile each rule, raise the
single-rule error when no outer else was supplied and fewer than two rules
exist, and otherwise fold the (condition, then) pairs right-to-left into
nested `if_`s, the rightmost rule's then expression (or the outer else)
serving as the terminal else.  An absent or empty scoring string yields no
expression (Python's `if not question.scoring_logic`). -/
def parse_question_scoring_logic (q : Question) (else_expr : Option Expr) :
    Except PError (Option Expr) :=
  match q.scoring_logic with
  | none => .ok none
  | some s =>
    if s = "" then .ok none
    else do
      let scoring_expressions ← (splitOnChar s ';').mapM (scoring_logic_txt_to_expr q)
      if else_expr.isNone ∧ scoring_expressions.length < 2 then
        .error (.invalidRuleSet q.id)
      else
        match else_expr with
        | some e =>
          .ok (some (scoring_expressions.reverse.foldl
            (fun acc lwr => .ifF lwr.conditional_expr lwr.then_expr acc) e))
        | none =>
          match scoring_expressions.getLast? with
          | some lastRes =>
            .ok (some (scoring_expressions.dropLast.reverse.foldl
              (fun acc lwr => .ifF lwr.conditional_expr lwr.then_expr acc)
              lastRes.then_expr))
          | none => .error .assertionFailure

/-- A survey-sheet row, from `lib/xls_forms/core.py` (`XLSFormRecord`).
The `type` cell carries the full type text (including a list name for the
select types); all optional cells default to absent.  The non-empty list
name guards of the `of_select_*` class methods only re-validate caller
constants and are not carried over. -/
structure XLSFormRecord where
  type : String
  appearance : Option String := none
  calculation : Option String := none
  choice_filter : Option String := none
  constraint : Option String := none
  constraint_message : Option String := none
  default : Option String := none
  hint : Option String := none
  label : Option String := none
  name : Option String := none
  note : Option String := none
  repeat_count : Option String := none
  parameters : Option String := none
  read_only : Option String := none
  relevant : Option String := none
  required : Option String := none
  required_message : Option String := none
  trigger : Option String := none
deriving DecidableEq

/-- A choices-sheet row, from `lib/xls_forms/core.py` (`XLSFormChoice`). -/
structure XLSFormChoice where
  label : String
  list_name : String
  name : String
  county : Option String := none
  sub_county : Option String := none
  ward : Option String := none
deriving DecidableEq

/-- The settings row, from `lib/xls_forms/core.py` (`XLSFormSettings`),
with its field defaults. -/
structure XLSFormSettings where
  form_id : String
  form_title : String
  default_language : Option String := some "English (en)"
  instance_name : Option String := none
  style : Option String := some "pages"
  version : Option String := some "1.5.0"
deriving DecidableEq

/-- A bundle of survey records plus the choice rows they contribute, from
`lib/xls_forms/core.py` (`XLSFormItem`). -/
structure XLSFormItem where
  records : List XLSFormRecord
  choices : List XLSFormChoice := []
deriving DecidableEq

/-- The compiled workbook, from `lib/xls_forms/core.py` (`XLSForm`). -/
structure XLSForm where
  survey : List XLSFormRecord
  choices : List XLSFormChoice
  settings : XLSFormSettings
deriving DecidableEq

/-- From `lib/serializers/xls_form/__init__.py`
(`_get_question_score_record_id`): `f"{question.id}_SCORE"`. -/
def get_question_score_record_id (q : Question) : String :=
  q.id ++ "_SCORE"

/-- From `lib/serializers/xls_form/__init__.py`
(`_get_question_int_score_record_id`): `f"{question.id}_INT_SCORE"`. -/
def get_question_int_score_record_id (q : Question) : String :=
  q.id ++ "_INT_SCORE"

/-- From `lib/serializers/xls_form/__init__.py`
(`_get_question_max_score_record_id`): `f"{question.id}_MAX_SCORE"`. -/
def get_question_max_score_record_id (q : Question) : String :=
  q.id ++ "_MAX_SCORE"

/-- From `lib/serializers/xls_form/__init__.py`
(`_get_question_relevance_record_id`): `f"{question.id}_RELEVANCE"`. -/
def get_question_relevance_record_id (q : Question) : String :=
  q.id ++ "_RELEVANCE"

/-- Python truthiness of an optional string (`if question.prompt`,
`if item.standard`, …): present and non-empty. -/
def pyTruthy : Option String → Bool
  | none => false
  | some s => s ≠ ""

/-- The hint cell built from a prompt:
`escape_markdown(question.prompt) if question.prompt else None`. -/
def prompt_hint (prompt : Option String) : Option String :=
  match prompt with
  | some p => if p = "" then none else some (escape_markdown p)
  | none => none

/-- From `lib/serializers/xls_form/__init__.py`
(`QuestionXLSFormSerializer._create_question_label`): the Markdown-escaped
label, prefixed with `"{display_numbering}. "` when the question is always
applicable and a display number is present. -/
def create_question_label (q : Question) : String :=
  let ql := escape_markdown q.label
  match q.display_numbering with
  | some n => if ¬q.na_option then toString n ++ ". " ++ ql else ql
  | none => ql

/-- From `lib/serializers/xls_form/__init__.py`
(`QuestionXLSFormSerializer._get_question_relevance_calculation`):
`if(<short_circuit>, TRUE, string(${q}_RELEVANCE) = 'yes')` where the
short-circuit literal is `FALSE` when `na_option` is set and `TRUE`
otherwise. -/
def get_question_relevance_calculation (q : Question) : String :=
  let short_circuit_value : Expr := .boolLit (!q.na_option)
  evalE (.ifF short_circuit_value (.boolLit true)
    (.eqE (.stringF (.varE (get_question_relevance_record_id q))) (.strLit "yes")))

/-- From `lib/serializers/xls_form/__init__.py`
(`QuestionXLSFormSerializer._get_perc_question_calculation`):
`round((number(${num} ^ 0) div number(${den} ^ 1)) * 100, 2)` with `^`
the coalesce operator (`Expr.__xor__`), `*`/`round` resolving through the
operator overloads to an `Int` literal `100` and places `2`. -/
def get_perc_question_calculation (num_id den_id : String) : String :=
  let q_num : Expr := .numberF (.coalesceF (.varE num_id) (.intLit 0))
  let q_den : Expr := .numberF (.coalesceF (.varE den_id) (.intLit 1))
  evalE (.roundF (.mulE (.brkt (.divE q_num q_den)) (.intLit 100)) (.intLit 2))

/-- From `lib/serializers/xls_form/__init__.py`
(`_create_question_relevance_record`): the `select_one yes_no` relevance
gate, `columns-pack`, default `yes`, hidden (`relevant` = `no`) unless the
question has an NA option. -/
def create_question_relevance_record (q : Question) : XLSFormRecord :=
  let baseLabel := "Is the question below applicable?"
  { type := "select_one yes_no"
    appearance := some "columns-pack"
    default := some "yes"
    hint := some "Select 'No' to skip to the next question."
    label := some (match q.display_numbering with
      | some n => toString n ++ ". " ++ baseLabel
      | none => baseLabel)
    name := some (get_question_relevance_record_id q)
    relevant := some (if q.na_option then "yes" else "no") }

/-- From `lib/serializers/xls_form/__init__.py`
(`_create_question_score_record`): a `calculate` row named `{q}_SCORE`
whose calculation is the compiled scoring expression (no outer else is
supplied) or the literal `gray` when the question has none, default
`gray`. -/
def create_question_score_record (q : Question) : Except PError XLSFormRecord := do
  let score_expr ← parse_question_scoring_logic q none
  .ok { type := "calculate"
        calculation := some (match score_expr with
          | some e => evalE e
          | none => "gray")
        default := some "gray"
        name := some (get_question_score_record_id q) }

/-- From `lib/serializers/xls_form/__init__.py`
(`_create_question_int_score_record`): a `calculate` row named
`{q}_INT_SCORE` mapping the textual score to 3/2/1/0. -/
def create_question_int_score_record (q : Question) : XLSFormRecord :=
  let q_value : Expr := .stringF (.varE (get_question_score_record_id q))
  let score_expr : Expr :=
    .ifF (.eqE q_value (.strLit "green")) (.numLit (.pyInt 3))
      (.ifF (.eqE q_value (.strLit "yellow")) (.intLit 2)
        (.ifF (.eqE q_value (.strLit "red")) (.intLit 1) (.intLit 0)))
  { type := "calculate"
    calculation := some (evalE score_expr)
    default := some "0"
    name := some (get_question_int_score_record_id q) }

/-- From `lib/serializers/xls_form/__init__.py`
(`_create_question_max_score_record`): a `calculate` row named
`{q}_MAX_SCORE`; `0` without a scoring rule, else the NA-conditional `3`.
The source matches `case str()`, so an empty (but present) scoring string
still counts as scored here. -/
def create_question_max_score_record (q : Question) : XLSFormRecord :=
  let q_value : Expr := .stringF (.varE (get_question_relevance_record_id q))
  let max_score : String :=
    match q.scoring_logic with
    | some _ =>
      if q.na_option then
        evalE (.ifF (.eqE q_value (.strLit "yes")) (.numLit (.pyInt 3)) (.intLit 0))
      else "3"
    | none => "0"
  { type := "calculate"
    calculation := some max_score
    default := some "0"
    name := some (get_question_max_score_record_id q) }

/-- From `lib/serializers/xls_form/__init__.py`
(`QuestionXLSFormSerializer._serialize_bool_question`): relevance gate,
`select_one yes_no` body, then the three score records. -/
def serialize_bool_question (q : Question) : Except PError XLSFormItem := do
  let scoreRec ← create_question_score_record q
  .ok { records := [
      create_question_relevance_record q,
      { type := "select_one yes_no"
        appearance := some "columns-pack"
        hint := prompt_hint q.prompt
        label := some (create_question_label q)
        name := some q.id
        relevant := some (get_question_relevance_calculation q) },
      scoreRec,
      create_question_int_score_record q,
      create_question_max_score_record q] }

/-- From `lib/serializers/xls_form/__init__.py`
(`QuestionXLSFormSerializer._serialize_count_question`): relevance gate, a
positive-integer body (`of_positive_integer`), then the score records. -/
def serialize_count_question (q : Question) : Except PError XLSFormItem := do
  let scoreRec ← create_question_score_record q
  .ok { records := [
      create_question_relevance_record q,
      { type := "integer"
        constraint := some ".>=0"
        constraint_message := some "This value must be >= 0"
        hint := prompt_hint q.prompt
        label := some (create_question_label q)
        name := some q.id
        relevant := some (get_question_relevance_calculation q) },
      scoreRec,
      create_question_int_score_record q,
      create_question_max_score_record q] }

/-- From `lib/serializers/xls_form/__init__.py`
(`QuestionXLSFormSerializer._serialize_rate_question`): relevance gate, a
`decimal` body, then the score records. -/
def serialize_rate_question (q : Question) : Except PError XLSFormItem := do
  let scoreRec ← create_question_score_record q
  .ok { records := [
      create_question_relevance_record q,
      { type := "decimal"
        hint := prompt_hint q.prompt
        label := some (create_question_label q)
        name := some q.id
        relevant := some (get_question_relevance_calculation q) },
      scoreRec,
      create_question_int_score_record q,
      create_question_max_score_record q] }

/-- From `lib/serializers/xls_form/__init__.py`
(`QuestionXLSFormSerializer._serialize_generic_simple_question`): relevance
gate, a free-`text` body, then the score records. -/
def serialize_generic_simple_question (q : Question) : Except PError XLSFormItem := do
  let scoreRec ← create_question_score_record q
  .ok { records := [
      create_question_relevance_record q,
      { type := "text"
        hint := prompt_hint q.prompt
        label := some (create_question_label q)
        name := some q.id
        relevant := some (get_question_relevance_calculation q) },
      scoreRec,
      create_question_int_score_record q,
      create_question_max_score_record q] }

/-- From `lib/serializers/xls_form/__init__.py`
(`QuestionXLSFormSerializer._serialize_multi_question`): one choice row per
sub-question (list `{q_id}`), a `select_multiple {q_id}` body between the
relevance gate and the score records.  The source's `ensure_not_none` on
`bool(sub_questions)` never fires (a `bool` is not `None`); the following
`assert question.sub_questions` is what fails on an empty sub-question
collection, embedded as `assertionFailure`. -/
def serialize_multi_question (q : Question) : Except PError XLSFormItem := do
  if q.sub_questions.isEmpty then
    .error .assertionFailure
  else
    let scoreRec ← create_question_score_record q
    .ok { records := [
        create_question_relevance_record q,
        { type := "select_multiple " ++ q.id
          hint := prompt_hint q.prompt
          label := some (create_question_label q)
          name := some q.id
          relevant := some (get_question_relevance_calculation q) },
        scoreRec,
        create_question_int_score_record q,
        create_question_max_score_record q],
          choices := q.sub_questions.map (fun sq =>
            { label := escape_markdown sq.label
              list_name := q.id
              name := sq.id }) }

/-- From `lib/serializers/xls_form/__init__.py`
(`QuestionXLSFormSerializer._serialize_select_question`): one choice row
per option, named `{q_id}_{k}` with `k` the 1-based option index, around a
`select_one {q_id}` body. -/
def serialize_select_question (q : Question) : Except PError XLSFormItem := do
  if q.options_set = [] then
    .error (.ensureFailure ("'SELECT' question MUST have options. '" ++ q.id ++
      "' has no options."))
  else
    let scoreRec ← create_question_score_record q
    .ok { records := [
        create_question_relevance_record q,
        { type := "select_one " ++ q.id
          hint := prompt_hint q.prompt
          label := some (create_question_label q)
          name := some q.id
          relevant := some (get_question_relevance_calculation q) },
        scoreRec,
        create_question_int_score_record q,
        create_question_max_score_record q],
          choices := q.options_set.enum.map (fun ic =>
            { label := escape_markdown ic.2
              list_name := q.id
              name := build_select_option_name q.id (ic.1 + 1) }) }

/-- A positive-integer input row for a PERC sub-question
(`XLSFormRecord.of_positive_integer` with the sub-question's escaped label
and id). -/
def perc_input_record (sq : Question) : XLSFormRecord :=
  { type := "integer"
    constraint := some ".>=0"
    constraint_message := some "This value must be >= 0"
    label := some (escape_markdown sq.label)
    name := some sq.id }

/-- The `{q_id}` percentage `calculate` row of a PERC group. -/
def perc_value_record (q numerator denominator : Question) : XLSFormRecord :=
  { type := "calculate"
    calculation := some (get_perc_question_calculation numerator.id denominator.id)
    name := some q.id }

/-- The `{q_id}_PERC_CALC_DISPLAY` note row of a PERC group. -/
def perc_note_record (q : Question) : XLSFormRecord :=
  { type := "note"
    hint := some ("_**Result:** " ++ evalE (.varE q.id) ++ "%_")
    name := some (q.id ++ "_PERC_CALC_DISPLAY") }

/-- The `table-list` `begin_group` row of a PERC group. -/
def perc_group_record (q : Question) : XLSFormRecord :=
  { type := "begin_group"
    appearance := some "table-list"
    hint := prompt_hint q.prompt
    label := some (create_question_label q)
    name := some (q.id ++ "_PERC_GRP")
    relevant := some (get_question_relevance_calculation q) }

/-- The `begin_group` row of a generic compound question. -/
def compound_group_record (q : Question) : XLSFormRecord :=
  { type := "begin_group"
    label := some (create_question_label q)
    name := some q.id
    relevant := some (get_question_relevance_calculation q) }

/-- An `end_group` row. -/
def end_group_record : XLSFormRecord := { type := "end_group" }

/-- From `lib/serializers/xls_form/__init__.py`
(`QuestionXLSFormSerializer._serialize_perc_question`): after the guards
(two sub-questions, one `NUM` and one `DEN`), a `table-list` group named
`{q_id}_PERC_GRP` holding the two positive-integer inputs, the `{q_id}`
percentage `calculate` row, the `{q_id}_PERC_CALC_DISPLAY` note, the three
score records and `end_group`. -/
def serialize_perc_question (q : Question) : Except PError XLSFormItem := do
  if q.sub_questions.isEmpty then
    .error (.ensureFailure ("'PERC' question MUST have sub-questions. '" ++ q.id ++
      "' has no sub-questions."))
  else if q.sub_questions.length ≠ 2 then
    .error (.ensureFailure ("'PERC' question MUST have exactly 2 sub-questions."))
  else
    match q.sub_questions.find? (fun sq => sq.question_type = .DEN),
        q.sub_questions.find? (fun sq => sq.question_type = .NUM) with
    | some denominator, some numerator => do
      let scoreRec ← create_question_score_record q
      .ok { records := [
          create_question_relevance_record q,
          perc_group_record q,
          perc_input_record numerator,
          perc_input_record denominator,
          perc_value_record q numerator denominator,
          perc_note_record q,
          scoreRec,
          create_question_int_score_record q,
          create_question_max_score_record q,
          end_group_record] }
    | _, _ =>
      .error (.ensureFailure ("'PERC' question MUST have one sub-question of type " ++
        "'DEN', and sub-question of type 'NUM'."))

mutual

/-- From `lib/serializers/xls_form/__init__.py`
(`QuestionXLSFormSerializer.serialize`): dispatch on the question kind;
other kinds with sub-questions lower as a generic compound group
(`_serialize_generic_compound_question`: relevance gate, a group named
`{q_id}` holding the recursively lowered sub-questions, the three score
records, `end_group`, the sub-questions' choice rows accumulated in
order), the rest as a generic simple `text` body. -/
def serialize_question : Question → Except PError XLSFormItem
  | q@(.mk _ _ _ _ _ _ _ subs _ _) =>
    match q.question_type with
    | .BOOL => serialize_bool_question q
    | .COUNT => serialize_count_question q
    | .MULTI => serialize_multi_question q
    | .PERC => serialize_perc_question q
    | .RATE => serialize_rate_question q
    | .SELECT => serialize_select_question q
    | _ =>
      if subs.isEmpty then serialize_generic_simple_question q
      else do
        let subItems ← serialize_question_list subs
        let scoreRec ← create_question_score_record q
        .ok { records :=
            [create_question_relevance_record q, compound_group_record q] ++
            (subItems.map XLSFormItem.records).flatten ++
            [scoreRec,
             create_question_int_score_record q,
             create_question_max_score_record q,
             end_group_record],
              choices := (subItems.map XLSFormItem.choices).flatten }

/-- Sequential lowering of a list of questions, accumulating the items in
order (the `for sub_question in question.sub_questions.values()` loop). -/
def serialize_question_list : List Question → Except PError (List XLSFormItem)
  | [] => .ok []
  | q :: qs => do
    let item ← serialize_question q
    let items ← serialize_question_list qs
    .ok (item :: items)

end

/-- From `lib/serializers/xls_form/__init__.py`
(`SectionXLSFormSerializer._get_section_int_score_calculation`):
`reduce(lambda acc, q: acc + number(${q}_INT_SCORE), questions, ZERO)` —
Python's `functools.reduce` is a left fold, so the `0` identity is the
leftmost summand. -/
def get_section_int_score_calculation (s : Section) : Expr :=
  s.questions.foldl
    (fun acc q => .addE acc (.numberF (.varE (get_question_int_score_record_id q))))
    (.intLit 0)

/-- From `lib/serializers/xls_form/__init__.py`
(`SectionXLSFormSerializer._get_section_max_score_calculation`): the same
left fold over `{q}_MAX_SCORE` references. -/
def get_section_max_score_calculation (s : Section) : Expr :=
  s.questions.foldl
    (fun acc q => .addE acc (.numberF (.varE (get_question_max_score_record_id q))))
    (.intLit 0)

/-- The fixed records a section contributes before its questions
(`SectionXLSFormSerializer.serialize`, the prelude): the `field-list`
group header, the optional standard note, the optional (doubly escaped)
instructions note, and the optional NA trigger.  The optional notes appear
only when the text is present and non-empty (Python truthiness). -/
def section_header_records (s : Section) : List XLSFormRecord :=
  [{ type := "begin_group"
     appearance := some "field-list"
     label := some (escape_markdown ("SEC #: " ++ s.id ++ " " ++ s.title))
     name := some s.id }] ++
  (match s.standard with
    | some t =>
      if t = "" then []
      else [{ type := "note"
              label := some ("**STANDARD:** " ++ escape_markdown t)
              name := some (s.id ++ "_STANDARD") }]
    | none => []) ++
  (match s.instructions with
    | some t =>
      if t = "" then []
      else [{ type := "note"
              label := some ("_**Instructions:** " ++
                escape_markdown (escape_markdown t) ++ "_")
              name := some (s.id ++ "_INSTRUCTION") }]
    | none => []) ++
  (if s.na_option then
    [{ type := "trigger"
       appearance := some "horizontal"
       label := some "Not Applicable?"
       name := some (s.id ++ "_NA") }]
   else [])

/-- The fixed records a section contributes after its questions
(`SectionXLSFormSerializer.serialize`, the postlude): the comments row,
the four section score rows, and `end_group`. -/
def section_tail_records (s : Section) : List XLSFormRecord :=
  let int_scr_rec_id := s.id ++ "_INT_SCORE"
  let max_scr_rec_id := s.id ++ "_MAX_SCORE"
  let na_optn_rec_id := s.id ++ "_NA"
  let per_scr_rec_id := s.id ++ "_PERCENTAGE_SCORE"
  let per_scr_calc : Expr :=
    .roundF (.mulE (.brkt (.divE (.numberF (.varE int_scr_rec_id))
      (.numberF (.varE max_scr_rec_id)))) (.intLit 100)) (.intLit 2)
  let sec_scr_base : Expr :=
    .ifF (.ltE (.numberF (.varE per_scr_rec_id)) (.intLit 90)) (.strLit "red")
      (.ifF (.ltE (.numberF (.varE per_scr_rec_id)) (.intLit 95)) (.strLit "yellow")
        (.strLit "green"))
  let sec_scr_calc : Expr :=
    if s.na_option then
      .ifF (.eqE (.stringF (.varE na_optn_rec_id)) (.strLit "OK")) (.strLit "gray")
        sec_scr_base
    else sec_scr_base
  [{ type := "text"
     appearance := some "multiline"
     label := some "Comments"
     name := some (s.id ++ "_COMMENTS") },
   { type := "calculate"
     calculation := some (evalE (get_section_int_score_calculation s))
     default := some "0"
     name := some int_scr_rec_id },
   { type := "calculate"
     calculation := some (evalE (get_section_max_score_calculation s))
     default := some "1"
     name := some max_scr_rec_id },
   { type := "calculate"
     calculation := some (evalE per_scr_calc)
     default := some "0"
     name := some per_scr_rec_id },
   { type := "select_one cee_score"
     appearance := some "minimal"
     calculation := some (evalE sec_scr_calc)
     default := some "red"
     label := some "Score"
     name := some (s.id ++ "_SCORE")
     read_only := some "yes" },
   { type := "end_group" }]

/-- From `lib/serializers/xls_form/__init__.py`
(`SectionXLSFormSerializer.serialize`): the prelude records, the lowered
questions in order, then the postlude records; the questions' choice rows
are accumulated in order. -/
def serialize_section (s : Section) : Except PError XLSFormItem := do
  let qItems ← serialize_question_list s.questions
  .ok { records := section_header_records s ++
          (qItems.map XLSFormItem.records).flatten ++ section_tail_records s
        choices := (qItems.map XLSFormItem.choices).flatten }

/-- The fixed cover-sheet survey records, from
`lib/serializers/xls_form/__init__.py` (`_COVER_SHEET_RECORDS`). -/
def COVER_SHEET_RECORDS : List XLSFormRecord :=
  [{ type := "begin_group"
     appearance := some "field-list"
     label := some "SITE AND ASSESSORS DETAILS"
     name := some "MCL.ASSESSMENT_DETAILS" },
   { type := "text"
     label := some "Name:"
     name := some "MCL.CS_ASSR_NAME"
     required := some "yes" },
   { type := "select_one counties"
     appearance := some "minimal"
     label := some "County:"
     name := some "MCL.CS_ASMT_COUNTY"
     required := some "yes" },
   { type := "select_one sub_counties"
     appearance := some "minimal,autocomplete"
     choice_filter := some "county=$\x7bMCL.CS_ASMT_COUNTY\x7d"
     label := some "Sub County:"
     name := some "MCL.CS_ASMT_SUB_COUNTY"
     required := some "yes" },
   { type := "select_one facilities"
     appearance := some "minimal,autocomplete"
     choice_filter := some "sub_county=$\x7bMCL.CS_ASMT_SUB_COUNTY\x7d"
     label := some "Facility:"
     name := some "MCL.CS_ASMT_FACILITY"
     required := some "yes" },
   { type := "note"
     calculation := some "$\x7bMCL.CS_ASMT_FACILITY\x7d"
     label := some "Selected Facility MFL-code:"
     name := some "MCL.CS_ASMT_FACILITY_MFL" },
   { type := "date"
     default := some "today()"
     label := some "Assessment Date:"
     name := some "MCL.CS_ASMT_DATE"
     required := some "yes" },
   { type := "time"
     default := some "now()"
     label := some "Assessment Start Time:"
     name := some "MCL.CS_ASMT_START_TIME" },
   { type := "geopoint"
     label := some "Location:"
     name := some "MCL.CS_ASMT_LOCATION" },
   { type := "end_group" }]

/-- The six default choice rows, from
`lib/serializers/xls_form/__init__.py` (`_DEFAULT_CHOICES`): the four CEE
score colours with inline-styled labels, then yes/no. -/
def DEFAULT_CHOICES : List XLSFormChoice :=
  [{ label := "<span style=\"color:gray\">Gray</span>"
     list_name := "cee_score", name := "gray" },
   { label := "<span style=\"color:green\">Green</span>"
     list_name := "cee_score", name := "green" },
   { label := "<span style=\"color:red\">Red</span>"
     list_name := "cee_score", name := "red" },
   { label := "<span style=\"color:yellow\">Yellow</span>"
     list_name := "cee_score", name := "yellow" },
   { label := "Yes", list_name := "yes_no", name := "yes" },
   { label := "No", list_name := "yes_no", name := "no" }]

/-- From `lib/serializers/xls_form/__init__.py`
(`ChecklistXLSFormSerializer.serialize`): guard on a sectionless
checklist, then the cover sheet followed by the lowered sections, the
default choices followed by the sections' choices, and the settings row
built from the checklist id and the Markdown-escaped name (all other
settings cells keeping their `XLSFormSettings` defaults). -/
def serialize_checklist (c : MentorshipChecklist) : Except PError XLSForm := do
  if c.sections.isEmpty then
    .error (.ensureFailure ("checklist MUST have sections. " ++ c.id ++
      " has no sections."))
  else
    let sItems ← c.sections.mapM serialize_section
    .ok { survey := COVER_SHEET_RECORDS ++ (sItems.map XLSFormItem.records).flatten
          choices := DEFAULT_CHOICES ++ (sItems.map XLSFormItem.choices).flatten
          settings := { form_id := c.id, form_title := escape_markdown c.name } }

/-- Lexicographic comparison of character lists by code point: the order
Python's `sorted` uses on strings.  (Lean's built-in `String` order is not
kernel-computable, so the comparison is spelled out.) -/
def lexLe : List Char → List Char → Bool
  | [], _ => true
  | _ :: _, [] => false
  | a :: as, b :: bs =>
    if a.toNat < b.toNat then true
    else if b.toNat < a.toNat then false
    else lexLe as bs

/-- Python string `<=`: code-point lexicographic order. -/
def strLe (s t : String) : Bool :=
  lexLe s.data t.data

/-- From `lib/serializers/xls_form/__init__.py`
(`FacilityXLSFormSerializer.serialize`): one `facilities` choice row per
facility, named by MFL code, with slugged org-unit columns. -/
def facility_choice (f : Facility) : XLSFormChoice :=
  { label := escape_markdown f.name
    list_name := "facilities"
    name := f.mfl_code
    county := some (org_unit_name_as_list_name f.county)
    sub_county := some (org_unit_name_as_list_name f.sub_county)
    ward := some (org_unit_name_as_list_name f.ward) }

/-- From `lib/serializers/xls_form/__init__.py`
(`FacilitiesXLSFormSerializer.serialize`): the facilities are visited in
`sorted(item, key=lambda f: f.name)` order — a stable sort by name,
embedded as the stable `List.insertionSort` under `strLe` — and contribute
one choice row each; the org-unit hierarchies collected along the way are
deduplicated (the source uses `set`s) and prepended as the counties,
sub-counties and wards choice lists.  Counties are fully sorted
(`sorted(org_units)`); sub-counties and wards are sorted by their own name
only (`key=lambda s: s[0]`), where the source's output order for ties
depends on Python's set iteration order and the embedding fixes the
first-occurrence order of the sorted facility traversal. -/
def serialize_facilities (fs : List Facility) : XLSFormItem :=
  let sortedFs := List.insertionSort (fun a b => strLe a.name b.name) fs
  let facChoices := sortedFs.map facility_choice
  let counties :=
    (List.insertionSort (fun a b => strLe a b) (sortedFs.map Facility.county).dedup).map
      (fun county =>
        ({ label := escape_markdown county
           list_name := "counties"
           name := org_unit_name_as_list_name county } : XLSFormChoice))
  let sub_counties :=
    (List.insertionSort (fun a b => strLe a.1 b.1)
        (sortedFs.map (fun f => (f.sub_county, f.county))).dedup).map
      (fun sc =>
        ({ label := escape_markdown sc.1
           list_name := "sub_counties"
           name := org_unit_name_as_list_name sc.1
           county := some (org_unit_name_as_list_name sc.2) } : XLSFormChoice))
  let wards :=
    (List.insertionSort (fun a b => strLe a.1 b.1)
        (sortedFs.map (fun f => (f.ward, f.sub_county, f.county))).dedup).map
      (fun w =>
        ({ label := escape_markdown w.1
           list_name := "wards"
           name := org_unit_name_as_list_name w.1
           county := some (org_unit_name_as_list_name w.2.2)
           sub_county := some (org_unit_name_as_list_name w.2.1) } : XLSFormChoice))
  { records := []
    choices := counties ++ sub_counties ++ wards ++ facChoices }

/-- The `{q}_SCORE` calculation cell a successful question lowering
produces (`None` when the lowering fails or no such record exists). -/
def score_calculation (q : Question) : Option String :=
  match serialize_question q with
  | .ok it =>
    (it.records.filterMap (fun r =>
      if r.name = some (get_question_score_record_id q) then r.calculation else none)).head?
  | .error _ => none

/-- Decidable membership in a question's four auxiliary record names. -/
def is_aux_name (qid n : String) : Bool :=
  n == qid ++ "_RELEVANCE" || n == qid ++ "_SCORE" ||
    n == qid ++ "_INT_SCORE" || n == qid ++ "_MAX_SCORE"

/-- The four auxiliary record names of a question, in the order the
serializers emit them. -/
def score_aux_names (qid : String) : List String :=
  [qid ++ "_RELEVANCE", qid ++ "_SCORE", qid ++ "_INT_SCORE", qid ++ "_MAX_SCORE"]

/-- The `facilities`-list choice rows of the facility lowering. -/
def facility_rows (fs : List Facility) : List XLSFormChoice :=
  (serialize_facilities fs).choices.filter (fun c => c.list_name == "facilities")

theorem append_ne_self (s t : String) (ht : t ≠ "") : s ++ t ≠ s := by
  intro he
  have hl := congrArg String.length he
  simp [String.length_append] at hl
  apply ht
  cases t with
  | mk d =>
    cases d with
    | nil => rfl
    | cons a b => simp [String.length] at hl

theorem append_right_inj (s : String) {a b : String} (h : s ++ a = s ++ b) : a = b := by
  have hd := congrArg String.data h
  simp only [String.data_append] at hd
  exact String.ext (List.append_cancel_left hd)

theorem append_ne_append (s : String) {a b : String} (h : a ≠ b) : s ++ a ≠ s ++ b :=
  fun he => h (append_right_inj s he)

/-- The concrete question of spec scenario S1: kind `BOOL`, id `S1_Q1`,
`na_option=false`, single scoring rule `If Y = Red`. -/
def s1_q1 : Question :=
  .mk "S1_Q1" "S1 question" .BOOL .BOOLEAN [] none (some "If Y = Red") [] false none

/-- C1 counterexample: lowering the S1 question does not produce a
`S1_Q1_SCORE` record at all — `parse_question_scoring_logic` raises the
single-rule error (the spec's `InvalidRuleSet`) because the question has a
single rule and the serializer supplies no outer else — and even when an
outer else `'gray'` is supplied, the compiled expression is
`if(not(selected(${S1_Q1}, 'no')), 'red', 'gray')`, not the claimed
`if(not(selected(${S1_Q1}, 'yes')), 'red', 'gray')`. -/
theorem C1_counterexample :
    serialize_question s1_q1 = .error (.invalidRuleSet "S1_Q1") ∧
    score_calculation s1_q1 = none ∧
    (parse_question_scoring_logic s1_q1 (some (.strLit "gray"))).map
        (fun o => o.map evalE) ≠
      .ok (some "if(not(selected($\x7bS1_Q1\x7d, 'yes')), 'red', 'gray')") := by
  refine ⟨by decide, by decide, by decide⟩

/-- C1 (amended): lowering the S1 question fails with the single-rule
`InvalidRuleSet` error naming `S1_Q1` (one rule, no outer else), and when
an outer else expression `'gray'` is supplied to the scoring compiler, the
compiled expression renders exactly
`if(not(selected(${S1_Q1}, 'no')), 'red', 'gray')`: the inverse condition
for `If Y = C` negates `selected(${q}, 'no')`, not `selected(${q}, 'yes')`. -/
theorem C1_bool_inverse_amended :
    serialize_question s1_q1 = .error (.invalidRuleSet "S1_Q1") ∧
    (parse_question_scoring_logic s1_q1 (some (.strLit "gray"))).map
        (fun o => o.map evalE) =
      .ok (some "if(not(selected($\x7bS1_Q1\x7d, 'no')), 'red', 'gray')") := by
  refine ⟨by decide, by decide⟩

/-- The `NUM` sub-question of spec scenario S2. -/
def s2_num : Question :=
  .mk "S2_Q1_NUM" "Numerator" .NUM .INTEGER_ZERO_OR_POSITIVE [] none none [] false none

/-- The `DEN` sub-question of spec scenario S2. -/
def s2_den : Question :=
  .mk "S2_Q1_DEN" "Denominator" .DEN .INTEGER_ZERO_OR_POSITIVE [] none none [] false none

/-- The concrete question of spec scenario S2: kind `PERC`, id `S2_Q1`,
rule `If >10% = Red ; If >5% and =<10% = Yellow ; If <5% = Green`. -/
def s2_q1 : Question :=
  .mk "S2_Q1" "S2 question" .PERC .FLOAT [] none
    (some "If >10% = Red ; If >5% and =<10% = Yellow ; If <5% = Green")
    [s2_num, s2_den] false none

/-- C3 counterexample: the compiled `S2_Q1_SCORE` calculation is not the
claimed string — the code renders the `DIGITS` tokens through Python
`float` (so `10` becomes `10.0`), leaves compound comparisons
unparenthesised, and combines the freshly built right term with the cached
left term, so the two terms of `If >5% and =<10%` appear right-to-left. -/
theorem C3_counterexample :
    score_calculation s2_q1 ≠
      some ("if(number($\x7bS2_Q1\x7d) > 10, 'red', if((number($\x7bS2_Q1\x7d) > 5) " ++
        "and (number($\x7bS2_Q1\x7d) <= 10), 'yellow', 'green'))") := by
  decide

/-- C3 (amended): for the S2 question the compiled `S2_Q1_SCORE`
calculation is exactly
`if(number(${S2_Q1}) > 10.0, 'red', if(number(${S2_Q1}) <= 10.0 and
number(${S2_Q1}) > 5.0, 'yellow', 'green'))`: thresholds render as Python
floats, the compound comparison is unparenthesised, and its two terms
appear right-to-left (the freshly reduced term first, the cached one
second). -/
theorem C3_perc_compound_amended :
    score_calculation s2_q1 =
      some ("if(number($\x7bS2_Q1\x7d) > 10.0, 'red', if(number($\x7bS2_Q1\x7d) <= 10.0 " ++
        "and number($\x7bS2_Q1\x7d) > 5.0, 'yellow', 'green'))") := by
  decide

theorem relevance_calc_eq (q : Question) (h : q.na_option = false) :
    get_question_relevance_calculation q =
      "if(yes, yes, $\x7b" ++ q.id ++ "_RELEVANCE\x7d = 'yes')" := by
  apply String.ext
  simp only [get_question_relevance_calculation, get_question_relevance_record_id, h,
    evalE, Bool.not_false, cond_true, String.data_append, List.append_assoc]
  rfl

theorem bindE_ok {α β : Type} (a : α) (f : α → Except PError β) :
    (Except.ok a >>= f) = f a := rfl

theorem bindE_error {α β : Type} (e : PError) (f : α → Except PError β) :
    ((Except.error e : Except PError α) >>= f) = .error e := rfl

theorem serialize_question_unfold (q : Question) :
    serialize_question q =
      match q.question_type with
      | .BOOL => serialize_bool_question q
      | .COUNT => serialize_count_question q
      | .MULTI => serialize_multi_question q
      | .PERC => serialize_perc_question q
      | .RATE => serialize_rate_question q
      | .SELECT => serialize_select_question q
      | _ =>
        if q.sub_questions.isEmpty then serialize_generic_simple_question q
        else
          (serialize_question_list q.sub_questions) >>= fun subItems =>
            (create_question_score_record q) >>= fun scoreRec =>
              Except.ok
                { records :=
                    [create_question_relevance_record q, compound_group_record q] ++
                    (subItems.map XLSFormItem.records).flatten ++
                    [scoreRec,
                     create_question_int_score_record q,
                     create_question_max_score_record q,
                     end_group_record]
                  choices := (subItems.map XLSFormItem.choices).flatten } := by
  cases q
  rfl

theorem create_score_ok (q : Question) (sr : XLSFormRecord)
    (h : create_question_score_record q = .ok sr) :
    ∃ se, parse_question_scoring_logic q none = .ok se ∧
      sr = { type := "calculate"
             calculation := some (match se with | some e => evalE e | none => "gray")
             default := some "gray"
             name := some (get_question_score_record_id q) } := by
  rcases hp : parse_question_scoring_logic q none with e | se <;>
    simp only [create_question_score_record, hp, bindE_ok, bindE_error] at h
  · exact absurd h (by simp)
  · simp only [Except.ok.injEq] at h
    exact ⟨se, rfl, h.symm⟩

theorem serialize_bool_shape (q : Question) (item : XLSFormItem)
    (h : serialize_bool_question q = .ok item) :
    ∃ sr, create_question_score_record q = .ok sr ∧
      item.records = [create_question_relevance_record q,
        { type := "select_one yes_no"
          appearance := some "columns-pack"
          hint := prompt_hint q.prompt
          label := some (create_question_label q)
          name := some q.id
          relevant := some (get_question_relevance_calculation q) },
        sr, create_question_int_score_record q, create_question_max_score_record q] ∧
      item.choices = [] := by
  rcases hsc : create_question_score_record q with e | sr <;>
    simp only [serialize_bool_question, hsc, bindE_ok, bindE_error] at h
  · exact absurd h (by simp)
  · simp only [Except.ok.injEq] at h
    exact ⟨sr, rfl, by rw [← h], by rw [← h]⟩

theorem serialize_count_shape (q : Question) (item : XLSFormItem)
    (h : serialize_count_question q = .ok item) :
    ∃ sr, create_question_score_record q = .ok sr ∧
      item.records = [create_question_relevance_record q,
        { type := "integer"
          constraint := some ".>=0"
          constraint_message := some "This value must be >= 0"
          hint := prompt_hint q.prompt
          label := some (create_question_label q)
          name := some q.id
          relevant := some (get_question_relevance_calculation q) },
        sr, create_question_int_score_record q, create_question_max_score_record q] ∧
      item.choices = [] := by
  rcases hsc : create_question_score_record q with e | sr <;>
    simp only [serialize_count_question, hsc, bindE_ok, bindE_error] at h
  · exact absurd h (by simp)
  · simp only [Except.ok.injEq] at h
    exact ⟨sr, rfl, by rw [← h], by rw [← h]⟩

theorem serialize_rate_shape (q : Question) (item : XLSFormItem)
    (h : serialize_rate_question q = .ok item) :
    ∃ sr, create_question_score_record q = .ok sr ∧
      item.records = [create_question_relevance_record q,
        { type := "decimal"
          hint := prompt_hint q.prompt
          label := some (create_question_label q)
          name := some q.id
          relevant := some (get_question_relevance_calculation q) },
        sr, create_question_int_score_record q, create_question_max_score_record q] ∧
      item.choices = [] := by
  rcases hsc : create_question_score_record q with e | sr <;>
    simp only [serialize_rate_question, hsc, bindE_ok, bindE_error] at h
  · exact absurd h (by simp)
  · simp only [Except.ok.injEq] at h
    exact ⟨sr, rfl, by rw [← h], by rw [← h]⟩

theorem serialize_generic_simple_shape (q : Question) (item : XLSFormItem)
    (h : serialize_generic_simple_question q = .ok item) :
    ∃ sr, create_question_score_record q = .ok sr ∧
      item.records = [create_question_relevance_record q,
        { type := "text"
          hint := prompt_hint q.prompt
          label := some (create_question_label q)
          name := some q.id
          relevant := some (get_question_relevance_calculation q) },
        sr, create_question_int_score_record q, create_question_max_score_record q] ∧
      item.choices = [] := by
  rcases hsc : create_question_score_record q with e | sr <;>
    simp only [serialize_generic_simple_question, hsc, bindE_ok, bindE_error] at h
  · exact absurd h (by simp)
  · simp only [Except.ok.injEq] at h
    exact ⟨sr, rfl, by rw [← h], by rw [← h]⟩

theorem serialize_multi_shape (q : Question) (item : XLSFormItem)
    (h : serialize_multi_question q = .ok item) :
    ∃ sr, create_question_score_record q = .ok sr ∧
      item.records = [create_question_relevance_record q,
        { type := "select_multiple " ++ q.id
          hint := prompt_hint q.prompt
          label := some (create_question_label q)
          name := some q.id
          relevant := some (get_question_relevance_calculation q) },
        sr, create_question_int_score_record q, create_question_max_score_record q] := by
  cases hsub : q.sub_questions.isEmpty with
  | true => simp [serialize_multi_question, hsub] at h
  | false =>
    rcases hsc : create_question_score_record q with e | sr
    · simp [serialize_multi_question, hsub, hsc, bindE_error] at h
    · simp only [serialize_multi_question, hsub, Bool.false_eq_true, if_false, hsc,
        bindE_ok, Except.ok.injEq] at h
      exact ⟨sr, rfl, by rw [← h]⟩

theorem serialize_select_shape (q : Question) (item : XLSFormItem)
    (h : serialize_select_question q = .ok item) :
    ∃ sr, create_question_score_record q = .ok sr ∧
      item.records = [create_question_relevance_record q,
        { type := "select_one " ++ q.id
          hint := prompt_hint q.prompt
          label := some (create_question_label q)
          name := some q.id
          relevant := some (get_question_relevance_calculation q) },
        sr, create_question_int_score_record q, create_question_max_score_record q] := by
  by_cases hopt : q.options_set = []
  · simp [serialize_select_question, hopt] at h
  · rcases hsc : create_question_score_record q with e | sr
    · simp [serialize_select_question, hopt, hsc, bindE_error] at h
    · simp only [serialize_select_question, hopt, if_false, hsc,
        bindE_ok, Except.ok.injEq] at h
      exact ⟨sr, rfl, by rw [← h]⟩

theorem serialize_perc_shape (q : Question) (item : XLSFormItem)
    (h : serialize_perc_question q = .ok item) :
    ∃ denominator numerator sr,
      q.sub_questions.find? (fun sq => sq.question_type = .DEN) = some denominator ∧
      q.sub_questions.find? (fun sq => sq.question_type = .NUM) = some numerator ∧
      create_question_score_record q = .ok sr ∧
      item.records = [create_question_relevance_record q,
        perc_group_record q, perc_input_record numerator, perc_input_record denominator,
        perc_value_record q numerator denominator, perc_note_record q,
        sr, create_question_int_score_record q, create_question_max_score_record q,
        end_group_record] := by
  cases hsub : q.sub_questions.isEmpty with
  | true => simp [serialize_perc_question, hsub] at h
  | false =>
    by_cases hlen : q.sub_questions.length = 2
    · rcases hden : q.sub_questions.find? (fun sq => sq.question_type = .DEN) with _ | den
      · simp [serialize_perc_question, hsub, hlen, hden] at h
      · rcases hnum : q.sub_questions.find? (fun sq => sq.question_type = .NUM) with _ | num
        · simp [serialize_perc_question, hsub, hlen, hden, hnum] at h
        · rcases hsc : create_question_score_record q with e | sr
          · simp [serialize_perc_question, hsub, hlen, hden, hnum, hsc, bindE_error] at h
          · simp only [serialize_perc_question, hsub, Bool.false_eq_true, if_false, hlen,
              ne_eq, not_true_eq_false, hden, hnum, hsc, bindE_ok, Except.ok.injEq] at h
            exact ⟨den, num, sr, hden, hnum, rfl, by rw [← h]⟩
    · simp [serialize_perc_question, hsub, hlen] at h

theorem serialize_question_list_mem (qs : List Question) (items : List XLSFormItem)
    (h : serialize_question_list qs = .ok items) :
    ∀ it ∈ items, ∃ sq ∈ qs, serialize_question sq = .ok it := by
  induction qs generalizing items with
  | nil =>
    simp only [serialize_question_list, Except.ok.injEq] at h
    subst h
    intro it hit
    exact absurd hit (by simp)
  | cons q qs ih =>
    rcases hq : serialize_question q with e | it1 <;>
      simp only [serialize_question_list, hq, bindE_ok, bindE_error] at h
    · exact absurd h (by simp)
    · rcases hqs : serialize_question_list qs with e | rest <;>
        simp only [hqs, bindE_ok, bindE_error] at h
      · exact absurd h (by simp)
      · simp only [Except.ok.injEq] at h
        subst h
        intro it hit
        rcases List.mem_cons.mp hit with rfl | hmem
        · exact ⟨q, List.mem_cons_self q qs, hq⟩
        · obtain ⟨sq, hsq, hser⟩ := ih rest hqs it hmem
          exact ⟨sq, List.mem_cons_of_mem q hsq, hser⟩

theorem serialize_compound_shape (q : Question) (item : XLSFormItem)
    (h : ((serialize_question_list q.sub_questions) >>= fun subItems =>
        (create_question_score_record q) >>= fun scoreRec =>
          Except.ok
            ({ records :=
                [create_question_relevance_record q, compound_group_record q] ++
                (subItems.map XLSFormItem.records).flatten ++
                [scoreRec,
                 create_question_int_score_record q,
                 create_question_max_score_record q,
                 end_group_record]
               choices := (subItems.map XLSFormItem.choices).flatten } : XLSFormItem)) =
        .ok item) :
    ∃ subItems sr, serialize_question_list q.sub_questions = .ok subItems ∧
      create_question_score_record q = .ok sr ∧
      item.records = create_question_relevance_record q :: compound_group_record q ::
        ((subItems.map XLSFormItem.records).flatten ++
          [sr, create_question_int_score_record q, create_question_max_score_record q,
           end_group_record]) ∧
      item.choices = (subItems.map XLSFormItem.choices).flatten := by
  rcases hsl : serialize_question_list q.sub_questions with e | subItems <;>
    rw [hsl] at h
  · simp [bindE_error] at h
  · rcases hsc : create_question_score_record q with e | sr <;>
      rw [hsc, bindE_ok] at h
    · simp [bindE_error] at h
    · rw [bindE_ok] at h
      simp only [Except.ok.injEq] at h
      exact ⟨subItems, sr, rfl, rfl, by rw [← h]; simp, by rw [← h]⟩

/-- The concrete always-applicable question used against C4: kind `BOOL`,
id `Q4`, `na_option=false`, no scoring rule. -/
def q4c : Question := .mk "Q4" "label" .BOOL .BOOLEAN [] none none [] false none

/-- C4 counterexample: for an always-applicable question the body's
`relevant` cell renders `if(yes, yes, ${Q4_RELEVANCE} = 'yes')`, not the
claimed `if(true(), true(), ${Q4}_RELEVANCE = 'yes')` (under either
reading of where the brace closes): the `Boolean` literal renders
`yes`/`no`, not `true()`/`false()`. -/
theorem C4_counterexample :
    get_question_relevance_calculation q4c =
      "if(yes, yes, $\x7bQ4_RELEVANCE\x7d = 'yes')" ∧
    get_question_relevance_calculation q4c ≠
      "if(true(), true(), $\x7bQ4\x7d_RELEVANCE = 'yes')" ∧
    get_question_relevance_calculation q4c ≠
      "if(true(), true(), $\x7bQ4_RELEVANCE\x7d = 'yes')" ∧
    evalE (.boolLit true) ≠ "true()" ∧
    evalE (.boolLit false) ≠ "false()" := by
  refine ⟨by decide, by decide, by decide, by decide, by decide⟩

/-- C4 (amended): for every question with `na_option=false`, the question
body record (the record right after the relevance gate, in every question
kind) carries the `relevant` cell `if(yes, yes, ${q}_RELEVANCE = 'yes')`:
the boolean literal for true renders as `yes` and the one for false
renders as `no`, and the relevance variable sits inside the braces. -/
theorem C4_relevance_short_circuit (q : Question) (h : q.na_option = false) :
    get_question_relevance_calculation q =
      "if(yes, yes, $\x7b" ++ q.id ++ "_RELEVANCE\x7d = 'yes')" ∧
    evalE (.boolLit true) = "yes" ∧
    evalE (.boolLit false) = "no" ∧
    ∀ item, serialize_question q = .ok item →
      (item.records.get? 1).bind XLSFormRecord.relevant =
        some ("if(yes, yes, $\x7b" ++ q.id ++ "_RELEVANCE\x7d = 'yes')") := by
  refine ⟨relevance_calc_eq q h, rfl, rfl, ?_⟩
  intro item hit
  have hrel : ∀ rel body rest, item.records = rel :: body :: rest →
      body.relevant = some (get_question_relevance_calculation q) →
      (item.records.get? 1).bind XLSFormRecord.relevant =
        some ("if(yes, yes, $\x7b" ++ q.id ++ "_RELEVANCE\x7d = 'yes')") := by
    intro rel body rest hrec hb
    rw [hrec]
    simp only [List.get?, Option.bind]
    rw [hb, relevance_calc_eq q h]
  rw [serialize_question_unfold q] at hit
  cases hq : q.question_type <;> rw [hq] at hit
  case BOOL =>
    obtain ⟨sr, _, hrec, _⟩ := serialize_bool_shape q item hit
    exact hrel _ _ _ hrec rfl
  case COUNT =>
    obtain ⟨sr, _, hrec, _⟩ := serialize_count_shape q item hit
    exact hrel _ _ _ hrec rfl
  case MULTI =>
    obtain ⟨sr, _, hrec⟩ := serialize_multi_shape q item hit
    exact hrel _ _ _ hrec rfl
  case PERC =>
    obtain ⟨den, num, sr, _, _, _, hrec⟩ := serialize_perc_shape q item hit
    exact hrel _ _ _ hrec rfl
  case RATE =>
    obtain ⟨sr, _, hrec, _⟩ := serialize_rate_shape q item hit
    exact hrel _ _ _ hrec rfl
  case SELECT =>
    obtain ⟨sr, _, hrec⟩ := serialize_select_shape q item hit
    exact hrel _ _ _ hrec rfl
  all_goals {
    have hit2 : (if q.sub_questions.isEmpty then serialize_generic_simple_question q
        else
          (serialize_question_list q.sub_questions) >>= fun subItems =>
            (create_question_score_record q) >>= fun scoreRec =>
              Except.ok
                ({ records :=
                    [create_question_relevance_record q, compound_group_record q] ++
                    (subItems.map XLSFormItem.records).flatten ++
                    [scoreRec,
                     create_question_int_score_record q,
                     create_question_max_score_record q,
                     end_group_record]
                   choices := (subItems.map XLSFormItem.choices).flatten } : XLSFormItem)) =
        .ok item := hit
    by_cases hsub : q.sub_questions.isEmpty
    · rw [if_pos hsub] at hit2
      obtain ⟨sr, _, hrec, _⟩ := serialize_generic_simple_shape q item hit2
      exact hrel _ _ _ hrec rfl
    · rw [if_neg hsub] at hit2
      obtain ⟨si, sr, _, _, hrec, _⟩ := serialize_compound_shape q item hit2
      exact hrel _ _ _ hrec rfl }

/-- C4 witness: the amended relevance property applied to the concrete
always-applicable `BOOL` question `Q4`. -/
theorem C4_witness :
    get_question_relevance_calculation q4c =
      "if(yes, yes, $\x7bQ4_RELEVANCE\x7d = 'yes')" ∧
    evalE (.boolLit true) = "yes" := by
  have h := C4_relevance_short_circuit q4c rfl
  exact ⟨h.1, h.2.1⟩

theorem serialize_checklist_settings (c : MentorshipChecklist) (form : XLSForm)
    (h : serialize_checklist c = .ok form) :
    form.settings = { form_id := c.id, form_title := escape_markdown c.name } := by
  cases hsec : c.sections.isEmpty with
  | true => simp [serialize_checklist, hsec] at h
  | false =>
    rcases hm : c.sections.mapM serialize_section with e | sItems <;>
      simp only [serialize_checklist, hsec, Bool.false_eq_true, if_false, hm,
        bindE_ok, bindE_error] at h
    · exact absurd h (by simp)
    · simp only [Except.ok.injEq] at h
      rw [← h]

/-- The concrete one-section checklist used against C8. -/
def c8w_question : Question :=
  .mk "CL_S1_Q1" "lbl" .TEXT .STRING [] none none [] false none

/-- The single section of the concrete checklist used against C8. -/
def c8w_section : Section :=
  { id := "CL_S1", title := "T", questions := [c8w_question] }

/-- The concrete one-section checklist used against C8. -/
def c8w : MentorshipChecklist :=
  { id := "CL", name := "My_Checklist", sections := [c8w_section] }

/-- C8 counterexample: the settings row of a compiled checklist carries
version `1.5.0` — the default of `XLSFormSettings.version` — not the
claimed `1.0.0`. -/
theorem C8_counterexample :
    (serialize_checklist c8w).map (fun f => f.settings.version) = .ok (some "1.5.0") ∧
    (serialize_checklist c8w).map (fun f => f.settings.version) ≠ .ok (some "1.0.0") := by
  refine ⟨by decide, by decide⟩

/-- C8 (amended): for every checklist whose compilation succeeds, the
settings row has form_id the checklist id, form_title the Markdown-escaped
checklist name, default_language `English (en)`, no instance name, style
`pages`, and version `1.5.0`. -/
theorem C8_settings (c : MentorshipChecklist) (form : XLSForm)
    (h : serialize_checklist c = .ok form) :
    form.settings = { form_id := c.id
                      form_title := escape_markdown c.name
                      default_language := some "English (en)"
                      instance_name := none
                      style := some "pages"
                      version := some "1.5.0" } :=
  serialize_checklist_settings c form h

/-- C8 witness: the amended settings property applied to the concrete
checklist `CL`. -/
theorem C8_witness :
    (serialize_checklist c8w).map XLSForm.settings =
      .ok { form_id := "CL"
            form_title := "My\\_Checklist"
            default_language := some "English (en)"
            instance_name := none
            style := some "pages"
            version := some "1.5.0" } := by
  have hok : (serialize_checklist c8w).isOk = true := by decide
  rcases hf : serialize_checklist c8w with e | form
  · rw [hf] at hok
    simp [Except.isOk, Except.toBool] at hok
  · have hs := C8_settings c8w form hf
    simp only [Except.map, hs]
    decide

theorem serialize_section_shape (s : Section) (item : XLSFormItem)
    (h : serialize_section s = .ok item) :
    ∃ qItems, serialize_question_list s.questions = .ok qItems ∧
      item.records = section_header_records s ++
        (qItems.map XLSFormItem.records).flatten ++ section_tail_records s ∧
      item.choices = (qItems.map XLSFormItem.choices).flatten := by
  rcases hql : serialize_question_list s.questions with e | qItems <;>
    simp only [serialize_section, hql, bindE_ok, bindE_error] at h
  · exact absurd h (by simp)
  · simp only [Except.ok.injEq] at h
    exact ⟨qItems, rfl, by rw [← h], by rw [← h]⟩

theorem int_score_fold_render (qs : List Question) (e : Expr) :
    evalE (qs.foldl
      (fun acc q => .addE acc (.numberF (.varE (get_question_int_score_record_id q)))) e) =
    qs.foldl (fun acc q => acc ++ (" + number($\x7b" ++ q.id ++ "_INT_SCORE\x7d)"))
      (evalE e) := by
  induction qs generalizing e with
  | nil => rfl
  | cons q qs ih =>
    simp only [List.foldl_cons]
    rw [ih]
    congr 1
    apply String.ext
    simp only [evalE, get_question_int_score_record_id, String.data_append, List.append_assoc]
    rfl

/-- The concrete one-question section used against C7: id `S`, one
top-level question `S_Q1`. -/
def c7s : Section :=
  { id := "S", title := "T",
    questions := [.mk "S_Q1" "lbl" .TEXT .STRING [] none none [] false none] }

/-- C7 counterexample: the `S_INT_SCORE` calculation of a one-question
section is `0 + number(${S_Q1_INT_SCORE})` — `functools.reduce` is a left
fold, so the `0` identity is the leftmost summand — not a right fold
ending in the `0` identity. -/
theorem C7_counterexample :
    (serialize_section c7s).map (fun it =>
      it.records.filterMap (fun r =>
        if r.name = some "S_INT_SCORE" then r.calculation else none)) =
      .ok ["0 + number($\x7bS_Q1_INT_SCORE\x7d)"] ∧
    "0 + number($\x7bS_Q1_INT_SCORE\x7d)" ≠ "number($\x7bS_Q1_INT_SCORE\x7d) + 0" := by
  refine ⟨by decide, by decide⟩

/-- C7 (amended): for every section whose serialization succeeds, the
`calculate` record named `{sid}_INT_SCORE` has as its calculation the sum
over the section's questions of `number(${q}_INT_SCORE)` folded
left-to-right starting from 0, so the rendered sum starts with the `0`
identity as the leftmost summand. -/
theorem C7_section_int_score (s : Section) (item : XLSFormItem)
    (h : serialize_section s = .ok item) :
    ∃ r ∈ item.records, r.type = "calculate" ∧
      r.name = some (s.id ++ "_INT_SCORE") ∧ r.default = some "0" ∧
      r.calculation = some (s.questions.foldl
        (fun acc q => acc ++ (" + number($\x7b" ++ q.id ++ "_INT_SCORE\x7d)")) "0") := by
  obtain ⟨qItems, _, hrec, _⟩ := serialize_section_shape s item h
  refine ⟨{ type := "calculate"
            calculation := some (evalE (get_section_int_score_calculation s))
            default := some "0"
            name := some (s.id ++ "_INT_SCORE") }, ?_, rfl, rfl, rfl, ?_⟩
  · rw [hrec]
    refine List.mem_append_right _ ?_
    simp [section_tail_records]
  · have := int_score_fold_render s.questions (.intLit 0)
    rw [get_section_int_score_calculation, this]
    rfl

/-- C7 witness: the amended left-fold property applied to the concrete
one-question section `S`. -/
theorem C7_witness :
    ∃ item, serialize_section c7s = .ok item ∧
      ∃ r ∈ item.records, r.type = "calculate" ∧
        r.name = some "S_INT_SCORE" ∧ r.default = some "0" ∧
        r.calculation = some "0 + number($\x7bS_Q1_INT_SCORE\x7d)" := by
  have hok : (serialize_section c7s).isOk = true := by decide
  rcases hf : serialize_section c7s with e | item
  · rw [hf] at hok
    simp [Except.isOk, Except.toBool] at hok
  · obtain ⟨r, hr, h1, h2, h3, h4⟩ := C7_section_int_score c7s item hf
    exact ⟨item, rfl, r, hr, h1, h2, h3, h4⟩

/-- C10: for every section with non-empty instructions and non-empty
standard text, the instructions note row's label is
`_**Instructions:** ` followed by the Markdown escape applied twice to the
instructions text, followed by `_`, whereas the standard note row's label
applies the escape exactly once. -/
theorem C10_instructions_double_escape (s : Section) (item : XLSFormItem)
    (t u : String) (hins : s.instructions = some t) (ht : t ≠ "")
    (hstd : s.standard = some u) (hu : u ≠ "")
    (h : serialize_section s = .ok item) :
    (∃ r ∈ item.records, r.type = "note" ∧ r.name = some (s.id ++ "_INSTRUCTION") ∧
      r.label = some ("_**Instructions:** " ++ escape_markdown (escape_markdown t) ++ "_")) ∧
    (∃ r ∈ item.records, r.type = "note" ∧ r.name = some (s.id ++ "_STANDARD") ∧
      r.label = some ("**STANDARD:** " ++ escape_markdown u)) := by
  obtain ⟨qItems, _, hrec, _⟩ := serialize_section_shape s item h
  constructor
  · refine ⟨{ type := "note"
              label := some ("_**Instructions:** " ++
                escape_markdown (escape_markdown t) ++ "_")
              name := some (s.id ++ "_INSTRUCTION") }, ?_, rfl, rfl, rfl⟩
    rw [hrec]
    refine List.mem_append_left _ (List.mem_append_left _ ?_)
    simp [section_header_records, hins, ht]
  · refine ⟨{ type := "note"
              label := some ("**STANDARD:** " ++ escape_markdown u)
              name := some (s.id ++ "_STANDARD") }, ?_, rfl, rfl, rfl⟩
    rw [hrec]
    refine List.mem_append_left _ (List.mem_append_left _ ?_)
    simp [section_header_records, hstd, hu]

/-- The concrete section used as the C10 witness: non-empty standard
`st_d` and instructions `in_s` containing Markdown metacharacters. -/
def c10s : Section :=
  { id := "S0", title := "T", standard := some "st_d", instructions := some "in_s",
    questions := [.mk "S0_Q1" "lbl" .TEXT .STRING [] none none [] false none] }

/-- C10 witness: the double-escape property applied to the concrete
section `S0` (`in_s` escapes once to `in\_s` and twice to `in\\_s`;
`st_d` escapes once to `st\_d`). -/
theorem C10_witness :
    ∃ item, serialize_section c10s = .ok item ∧
      (∃ r ∈ item.records, r.type = "note" ∧ r.name = some "S0_INSTRUCTION" ∧
        r.label = some "_**Instructions:** in\\\\_s_") ∧
      (∃ r ∈ item.records, r.type = "note" ∧ r.name = some "S0_STANDARD" ∧
        r.label = some "**STANDARD:** st\\_d") := by
  have hok : (serialize_section c10s).isOk = true := by decide
  rcases hf : serialize_section c10s with e | item
  · rw [hf] at hok
    simp [Except.isOk, Except.toBool] at hok
  · obtain ⟨h1, h2⟩ := C10_instructions_double_escape c10s item "in_s" "st_d" rfl
      (by decide) rfl (by decide) hf
    exact ⟨item, rfl, h1, h2⟩

theorem mapM_ok_of_all (l : List String) (f : String → Except PError WalkResults)
    (hp : ∀ r ∈ l, ∃ w, f r = .ok w) :
    ∃ ws, l.mapM f = .ok ws ∧ ws.length = l.length := by
  induction l with
  | nil => exact ⟨[], rfl, rfl⟩
  | cons r rs ih =>
    obtain ⟨w, hw⟩ := hp r (List.mem_cons_self r rs)
    obtain ⟨ws, hws, hlen⟩ := ih (fun x hx => hp x (List.mem_cons_of_mem r hx))
    refine ⟨w :: ws, ?_, by simp [hlen]⟩
    rw [List.mapM_cons, hw]
    simp only [bindE_ok, hws]
    rfl

/-- C2: for every question whose non-empty scoring string splits into
fewer than two `;`-separated rules, each of which compiles, compiling the
question's scoring expression with no outer else raises the single-rule
error (the spec's `InvalidRuleSet`) naming the question id; when an outer
else is supplied or the rule list has two or more rules, no such error is
raised. -/
theorem C2_invalid_rule_set (q : Question) (s : String)
    (hs : q.scoring_logic = some s) (hne : s ≠ "")
    (hparse : ∀ r ∈ splitOnChar s ';', ∃ w, scoring_logic_txt_to_expr q r = .ok w) :
    ((splitOnChar s ';').length < 2 →
      parse_question_scoring_logic q none = .error (.invalidRuleSet q.id)) ∧
    ∀ else_expr : Option Expr,
      (else_expr.isSome ∨ 2 ≤ (splitOnChar s ';').length) →
      ∀ qid, parse_question_scoring_logic q else_expr ≠ .error (.invalidRuleSet qid) := by
  obtain ⟨ws, hws, hlen⟩ := mapM_ok_of_all _ _ hparse
  constructor
  · intro hlt
    simp only [parse_question_scoring_logic, hs]
    rw [if_neg hne, hws]
    simp only [bindE_ok]
    rw [if_pos]
    exact ⟨rfl, by omega⟩
  · intro else_expr hor qid hcontra
    simp only [parse_question_scoring_logic, hs] at hcontra
    rw [if_neg hne, hws] at hcontra
    simp only [bindE_ok] at hcontra
    by_cases hc : else_expr.isNone = true ∧ ws.length < 2
    · rcases hor with hsome | hlen2
      · rw [Option.isSome_iff_ne_none] at hsome
        exact hsome (Option.eq_none_of_isNone hc.1)
      · omega
    · rw [if_neg hc] at hcontra
      rcases else_expr with _ | e
      · rcases hlast : ws.getLast? with _ | lastRes <;> rw [hlast] at hcontra <;>
          simp at hcontra
      · simp at hcontra

/-- C2 witness: the single-rule error property applied to the S1 question
(one rule `If Y = Red`): with no outer else the compiler raises the
single-rule error naming `S1_Q1`, and with outer else `'gray'` it never
raises it. -/
theorem C2_witness :
    parse_question_scoring_logic s1_q1 none = .error (.invalidRuleSet "S1_Q1") ∧
    ∀ qid, parse_question_scoring_logic s1_q1 (some (.strLit "gray")) ≠
      .error (.invalidRuleSet qid) := by
  have hsplit : splitOnChar "If Y = Red" ';' = ["If Y = Red"] := by decide
  have hparse : ∀ r ∈ splitOnChar "If Y = Red" ';',
      ∃ w, scoring_logic_txt_to_expr s1_q1 r = .ok w := by
    intro r hr
    rw [hsplit] at hr
    simp only [List.mem_singleton] at hr
    subst hr
    exact ⟨_, rfl⟩
  have h := C2_invalid_rule_set s1_q1 "If Y = Red" rfl (by decide) hparse
  exact ⟨h.1 (by rw [hsplit]; decide),
    fun qid => h.2 (some (.strLit "gray")) (Or.inl rfl) qid⟩

theorem perc_calc_render (n d : String) :
    get_perc_question_calculation n d =
      "round((number(coalesce($\x7b" ++ n ++ "\x7d, 0)) div number(coalesce($\x7b" ++
        d ++ "\x7d, 1))) * 100, 2)" := by
  apply String.ext
  simp only [get_perc_question_calculation, evalE, PyNum.render, String.data_append,
    List.append_assoc]
  rfl

/-- C6: for every PERC question whose lowering succeeds, with NUM
sub-question `numerator` and DEN sub-question `denominator`, the
`calculate` record named with the question's id has calculation exactly
`round((number(coalesce(${num}, 0)) div number(coalesce(${den}, 1))) * 100, 2)`. -/
theorem C6_perc_calculation (q : Question) (item : XLSFormItem)
    (hq : q.question_type = .PERC)
    (numerator denominator : Question)
    (hnum : q.sub_questions.find? (fun sq => sq.question_type = .NUM) = some numerator)
    (hden : q.sub_questions.find? (fun sq => sq.question_type = .DEN) = some denominator)
    (h : serialize_question q = .ok item) :
    ∃ r ∈ item.records, r.type = "calculate" ∧ r.name = some q.id ∧
      r.calculation = some ("round((number(coalesce($\x7b" ++ numerator.id ++
        "\x7d, 0)) div number(coalesce($\x7b" ++ denominator.id ++
        "\x7d, 1))) * 100, 2)") := by
  rw [serialize_question_unfold q, hq] at h
  obtain ⟨den, num, sr, hden', hnum', _, hrec⟩ := serialize_perc_shape q item h
  rw [hden] at hden'
  rw [hnum] at hnum'
  simp only [Option.some.injEq] at hden' hnum'
  subst hden'
  subst hnum'
  refine ⟨perc_value_record q numerator denominator, ?_, rfl, rfl, ?_⟩
  · rw [hrec]
    simp
  · simp only [perc_value_record]
    rw [perc_calc_render]

/-- The `NUM` sub-question of the concrete C6 witness question. -/
def c6num : Question :=
  .mk "P_NUM" "numL" .NUM .INTEGER_ZERO_OR_POSITIVE [] none none [] false none

/-- The `DEN` sub-question of the concrete C6 witness question. -/
def c6den : Question :=
  .mk "P_DEN" "denL" .DEN .INTEGER_ZERO_OR_POSITIVE [] none none [] false none

/-- The concrete `PERC` question of the C6 witness. -/
def c6q : Question :=
  .mk "P" "lbl" .PERC .FLOAT [] none none [c6num, c6den] false none

/-- C6 witness: the percentage-calculation property applied to the
concrete `PERC` question `P` with numerator `P_NUM` and denominator
`P_DEN`. -/
theorem C6_witness :
    ∃ item, serialize_question c6q = .ok item ∧
      ∃ r ∈ item.records, r.type = "calculate" ∧ r.name = some "P" ∧
        r.calculation =
          some "round((number(coalesce($\x7bP_NUM\x7d, 0)) div number(coalesce($\x7bP_DEN\x7d, 1))) * 100, 2)" := by
  have hok : (serialize_question c6q).isOk = true := by decide
  rcases hf : serialize_question c6q with e | item
  · rw [hf] at hok
    simp [Except.isOk, Except.toBool] at hok
  · obtain ⟨r, hr, h1, h2, h3⟩ := C6_perc_calculation c6q item rfl c6num c6den
      rfl rfl hf
    exact ⟨item, rfl, r, hr, h1, h2, h3⟩

theorem char_toNat_inj {a b : Char} (h : a.toNat = b.toNat) : a = b := by
  have h2 := congrArg Char.ofNat h
  rwa [Char.ofNat_toNat, Char.ofNat_toNat] at h2

theorem lexLe_cons_iff (a b : Char) (as bs : List Char) :
    lexLe (a :: as) (b :: bs) = true ↔
      (a.toNat < b.toNat ∨ (a.toNat = b.toNat ∧ lexLe as bs = true)) := by
  simp only [lexLe]
  split_ifs with h1 h2
  · simp [h1]
  · simp
    omega
  · have he : a.toNat = b.toNat := by omega
    simp [he]

theorem lexLe_total (as bs : List Char) : lexLe as bs = true ∨ lexLe bs as = true := by
  induction as generalizing bs with
  | nil => exact Or.inl rfl
  | cons a as ih =>
    cases bs with
    | nil => exact Or.inr rfl
    | cons b bs =>
      rw [lexLe_cons_iff, lexLe_cons_iff]
      rcases Nat.lt_trichotomy a.toNat b.toNat with h | h | h
      · exact Or.inl (Or.inl h)
      · rcases ih bs with h2 | h2
        · exact Or.inl (Or.inr ⟨h, h2⟩)
        · exact Or.inr (Or.inr ⟨h.symm, h2⟩)
      · exact Or.inr (Or.inl h)

theorem lexLe_trans {as bs cs : List Char} (h1 : lexLe as bs = true)
    (h2 : lexLe bs cs = true) : lexLe as cs = true := by
  induction as generalizing bs cs with
  | nil => rfl
  | cons a as ih =>
    cases bs with
    | nil => simp [lexLe] at h1
    | cons b bs =>
      cases cs with
      | nil => simp [lexLe] at h2
      | cons c cs =>
        rw [lexLe_cons_iff] at h1 h2 ⊢
        rcases h1 with h1 | ⟨he1, hl1⟩
        · rcases h2 with h2 | ⟨he2, _⟩
          · exact Or.inl (by omega)
          · exact Or.inl (by omega)
        · rcases h2 with h2 | ⟨he2, hl2⟩
          · exact Or.inl (by omega)
          · exact Or.inr ⟨by omega, ih hl1 hl2⟩

theorem lexLe_antisymm : ∀ {as bs : List Char},
    lexLe as bs = true → lexLe bs as = true → as = bs
  | [], [], _, _ => rfl
  | [], _ :: _, _, h2 => by simp [lexLe] at h2
  | _ :: _, [], h1, _ => by simp [lexLe] at h1
  | a :: as, b :: bs, h1, h2 => by
    rw [lexLe_cons_iff] at h1 h2
    rcases h1 with h1 | ⟨he1, hl1⟩
    · rcases h2 with h2 | ⟨he2, _⟩ <;> omega
    · rcases h2 with h2 | ⟨he2, hl2⟩
      · omega
      · rw [char_toNat_inj he1, lexLe_antisymm hl1 hl2]

theorem strLe_total (s t : String) : strLe s t = true ∨ strLe t s = true :=
  lexLe_total s.data t.data

theorem strLe_trans {s t u : String} (h1 : strLe s t = true) (h2 : strLe t u = true) :
    strLe s u = true :=
  lexLe_trans h1 h2

theorem strLe_antisymm {s t : String} (h1 : strLe s t = true) (h2 : strLe t s = true) :
    s = t :=
  String.ext (lexLe_antisymm h1 h2)

theorem facility_rows_sorted_eq (fs : List Facility) :
    facility_rows fs =
      (List.insertionSort (fun a b => strLe a.name b.name) fs).map facility_choice := by
  have hnil : ∀ (ln : String) (l : List XLSFormChoice),
      (∀ c ∈ l, c.list_name = ln) → ln ≠ "facilities" →
      l.filter (fun c => c.list_name == "facilities") = [] := by
    intro ln l hl hne
    rw [List.filter_eq_nil_iff]
    intro c hc
    simp only [beq_iff_eq]
    rw [hl c hc]
    exact hne
  simp only [facility_rows, serialize_facilities, List.filter_append]
  rw [hnil "counties" _ (by intro c hc; obtain ⟨x, _, hx⟩ := List.mem_map.mp hc; rw [← hx])
      (by decide),
    hnil "sub_counties" _ (by intro c hc; obtain ⟨x, _, hx⟩ := List.mem_map.mp hc; rw [← hx])
      (by decide),
    hnil "wards" _ (by intro c hc; obtain ⟨x, _, hx⟩ := List.mem_map.mp hc; rw [← hx])
      (by decide)]
  rw [List.filter_eq_self.mpr]
  · rfl
  · intro c hc
    obtain ⟨x, _, hx⟩ := List.mem_map.mp hc
    rw [← hx]
    rfl

/-- C9 (amended): the facility choice rows (`list_name = facilities`)
produced by facility lowering are the rows of the input facilities in
ascending (non-strict, by Python's stable `sorted`) lexicographic order of
facility name; and for any two inputs that are permutations of each other
whose facility names are pairwise distinct, the produced facility-row
sequences are identical.  (With duplicate names the stable sort preserves
the input order among equal names, so permutation invariance fails; see
the counterexample.) -/
theorem C9_facility_order (fs1 fs2 : List Facility) (hperm : List.Perm fs1 fs2) :
    (∃ fs', List.Perm fs' fs1 ∧
      fs'.Pairwise (fun a b => strLe a.name b.name = true) ∧
      facility_rows fs1 = fs'.map facility_choice) ∧
    ((fs1.map Facility.name).Nodup → facility_rows fs1 = facility_rows fs2) := by
  haveI hTot : IsTotal Facility (fun a b : Facility => strLe a.name b.name = true) :=
    ⟨fun a b => strLe_total a.name b.name⟩
  haveI hTrans : IsTrans Facility (fun a b : Facility => strLe a.name b.name = true) :=
    ⟨fun _ _ _ => strLe_trans⟩
  constructor
  · exact ⟨List.insertionSort (fun a b => strLe a.name b.name) fs1,
      List.perm_insertionSort _ fs1,
      List.sorted_insertionSort _ fs1,
      facility_rows_sorted_eq fs1⟩
  · intro hnodup
    rw [facility_rows_sorted_eq fs1, facility_rows_sorted_eq fs2]
    have hsortperm : List.Perm (List.insertionSort (fun a b => strLe a.name b.name) fs1)
        (List.insertionSort (fun a b => strLe a.name b.name) fs2) :=
      ((List.perm_insertionSort _ fs1).trans hperm).trans
        (List.perm_insertionSort _ fs2).symm
    have hpair : ∀ l : List Facility, (l.map Facility.name).Nodup →
        l.Sorted (fun a b : Facility => strLe a.name b.name = true) →
        l.Pairwise (fun a b : Facility =>
          strLe a.name b.name = true ∧ a.name ≠ b.name) := by
      intro l hn hs
      have hne : l.Pairwise (fun a b : Facility => a.name ≠ b.name) :=
        (List.pairwise_map).mp hn
      exact hs.and hne
    have hn1 : ((List.insertionSort (fun a b => strLe a.name b.name) fs1).map
        Facility.name).Nodup :=
      (((List.perm_insertionSort _ fs1).map Facility.name).nodup_iff).mpr hnodup
    have hn2 : ((List.insertionSort (fun a b => strLe a.name b.name) fs2).map
        Facility.name).Nodup := by
      refine (((List.perm_insertionSort _ fs2).map Facility.name).nodup_iff).mpr ?_
      exact ((hperm.map Facility.name).nodup_iff).mp hnodup
    have hs1 := hpair _ hn1 (List.sorted_insertionSort _ fs1)
    have hs2 := hpair _ hn2 (List.sorted_insertionSort _ fs2)
    have hanti : ∀ a b : Facility,
        (strLe a.name b.name = true ∧ a.name ≠ b.name) →
        (strLe b.name a.name = true ∧ b.name ≠ a.name) → a = b := by
      intro a b ⟨hle1, hne1⟩ ⟨hle2, _⟩
      exact absurd (strLe_antisymm hle1 hle2) hne1
    congr 1
    haveI : IsAntisymm Facility (fun a b : Facility =>
        strLe a.name b.name = true ∧ a.name ≠ b.name) := ⟨hanti⟩
    exact List.eq_of_perm_of_sorted hsortperm hs1 hs2

/-- A facility named `A`; clashes with `c9f2` by name only. -/
def c9f1 : Facility :=
  { name := "A", mfl_code := "1", county := "C", sub_county := "SC", ward := "W" }

/-- A second facility also named `A`, with a different MFL code. -/
def c9f2 : Facility :=
  { name := "A", mfl_code := "2", county := "C", sub_county := "SC", ward := "W" }

/-- C9 counterexample: two facilities sharing the name `A` but differing
in MFL code — the inputs `[c9f1, c9f2]` and `[c9f2, c9f1]` are
permutations of each other, yet the produced `facilities` choice rows
differ (Python's `sorted` is stable, so equal names keep their input
order). -/
theorem C9_counterexample :
    List.Perm [c9f1, c9f2] [c9f2, c9f1] ∧
    facility_rows [c9f1, c9f2] ≠ facility_rows [c9f2, c9f1] := by
  refine ⟨by decide, by decide⟩

/-- A facility named `B f`, used in the C9 witness. -/
def c9w1 : Facility :=
  { name := "B f", mfl_code := "3", county := "D", sub_county := "SD", ward := "W2" }

/-- A facility named `A`, used in the C9 witness. -/
def c9w2 : Facility :=
  { name := "A", mfl_code := "4", county := "C", sub_county := "SC", ward := "W" }

/-- C9 witness: the ordering and permutation-invariance properties applied
to the concrete distinct-name inputs `[c9w1, c9w2]` and `[c9w2, c9w1]`. -/
theorem C9_witness :
    (∃ fs', List.Perm fs' [c9w1, c9w2] ∧
      fs'.Pairwise (fun a b => strLe a.name b.name = true) ∧
      facility_rows [c9w1, c9w2] = fs'.map facility_choice) ∧
    facility_rows [c9w1, c9w2] = facility_rows [c9w2, c9w1] := by
  have h := C9_facility_order [c9w1, c9w2] [c9w2, c9w1] (by decide)
  exact ⟨h.1, h.2 (by decide)⟩

/-- The names among a record list that are one of a question's four
auxiliary record names, in sheet order. -/
def aux_names_of (qid : String) (rs : List XLSFormRecord) : List String :=
  (rs.filterMap XLSFormRecord.name).filter (is_aux_name qid)

theorem aux_cons_some_true {qid n : String} {r : XLSFormRecord} (rs : List XLSFormRecord)
    (h : r.name = some n) (ht : is_aux_name qid n = true) :
    aux_names_of qid (r :: rs) = n :: aux_names_of qid rs := by
  simp [aux_names_of, List.filterMap_cons, h, List.filter_cons, ht]

theorem aux_cons_some_false {qid n : String} {r : XLSFormRecord} (rs : List XLSFormRecord)
    (h : r.name = some n) (hf : is_aux_name qid n = false) :
    aux_names_of qid (r :: rs) = aux_names_of qid rs := by
  simp [aux_names_of, List.filterMap_cons, h, List.filter_cons, hf]

theorem aux_cons_none {qid : String} {r : XLSFormRecord} (rs : List XLSFormRecord)
    (h : r.name = none) :
    aux_names_of qid (r :: rs) = aux_names_of qid rs := by
  simp [aux_names_of, List.filterMap_cons, h]

theorem aux_append (qid : String) (l1 l2 : List XLSFormRecord) :
    aux_names_of qid (l1 ++ l2) = aux_names_of qid l1 ++ aux_names_of qid l2 := by
  simp [aux_names_of, List.filterMap_append, List.filter_append]

theorem aux_nil_of_all {qid : String} {rs : List XLSFormRecord}
    (h : ∀ r ∈ rs, ∀ n, r.name = some n → is_aux_name qid n = false) :
    aux_names_of qid rs = [] := by
  rw [aux_names_of, List.filter_eq_nil_iff]
  intro n hn
  obtain ⟨r, hr, hname⟩ := List.mem_filterMap.mp hn
  simp [h r hr n hname]

theorem is_aux_name_false_of_ne (qid n : String)
    (h1 : n ≠ qid ++ "_RELEVANCE") (h2 : n ≠ qid ++ "_SCORE")
    (h3 : n ≠ qid ++ "_INT_SCORE") (h4 : n ≠ qid ++ "_MAX_SCORE") :
    is_aux_name qid n = false := by
  simp [is_aux_name, h1, h2, h3, h4]

theorem is_aux_name_id (qid : String) : is_aux_name qid qid = false :=
  is_aux_name_false_of_ne qid qid
    (Ne.symm (append_ne_self qid "_RELEVANCE" (by decide)))
    (Ne.symm (append_ne_self qid "_SCORE" (by decide)))
    (Ne.symm (append_ne_self qid "_INT_SCORE" (by decide)))
    (Ne.symm (append_ne_self qid "_MAX_SCORE" (by decide)))

theorem is_aux_name_suffix_false (qid suffix : String)
    (h1 : suffix ≠ "_RELEVANCE") (h2 : suffix ≠ "_SCORE")
    (h3 : suffix ≠ "_INT_SCORE") (h4 : suffix ≠ "_MAX_SCORE") :
    is_aux_name qid (qid ++ suffix) = false :=
  is_aux_name_false_of_ne qid (qid ++ suffix)
    (append_ne_append qid h1) (append_ne_append qid h2)
    (append_ne_append qid h3) (append_ne_append qid h4)

theorem aux_core (qid : String) (rel body sr intR maxR : XLSFormRecord)
    (mid tail rest : List XLSFormRecord)
    (hrest : rest = mid ++ [sr, intR, maxR] ++ tail)
    (hrel : rel.name = some (qid ++ "_RELEVANCE"))
    (hsr : sr.name = some (qid ++ "_SCORE"))
    (hint : intR.name = some (qid ++ "_INT_SCORE"))
    (hmax : maxR.name = some (qid ++ "_MAX_SCORE"))
    (hbody : ∀ n, body.name = some n → is_aux_name qid n = false)
    (hmid : ∀ r ∈ mid, ∀ n, r.name = some n → is_aux_name qid n = false)
    (htail : ∀ r ∈ tail, ∀ n, r.name = some n → is_aux_name qid n = false) :
    aux_names_of qid (rel :: body :: rest) = score_aux_names qid ∧
    aux_names_of qid rest =
      [qid ++ "_SCORE", qid ++ "_INT_SCORE", qid ++ "_MAX_SCORE"] := by
  have hrest2 : aux_names_of qid rest =
      [qid ++ "_SCORE", qid ++ "_INT_SCORE", qid ++ "_MAX_SCORE"] := by
    rw [hrest, aux_append, aux_append, aux_nil_of_all hmid, aux_nil_of_all htail]
    rw [aux_cons_some_true _ hsr (by simp [is_aux_name]),
      aux_cons_some_true _ hint (by simp [is_aux_name]),
      aux_cons_some_true _ hmax (by simp [is_aux_name])]
    simp [aux_names_of]
  refine ⟨?_, hrest2⟩
  rw [aux_cons_some_true _ hrel (by simp [is_aux_name])]
  have hbody2 : aux_names_of qid (body :: rest) = aux_names_of qid rest := by
    rcases hb : body.name with _ | n
    · exact aux_cons_none _ hb
    · exact aux_cons_some_false _ hb (hbody n hb)
  rw [hbody2, hrest2]
  rfl

/-- Freshness of a sub-question with respect to its parent's auxiliary
record names: neither its own id nor any record name its lowering
produces collides with one of the parent's four auxiliary names. -/
def sub_lowering_fresh (qid : String) (sq : Question) : Prop :=
  is_aux_name qid sq.id = false ∧
  ∀ it, serialize_question sq = .ok it →
    ∀ r ∈ it.records, ∀ n, r.name = some n → is_aux_name qid n = false

/-- C5 (amended): for every question q with a scoring rule whose lowering
succeeds (and whose sub-questions, if any, do not collide with q's
auxiliary record names), the lowered records contain exactly one record
named `{q}_RELEVANCE`, one `{q}_SCORE`, one `{q}_INT_SCORE` and one
`{q}_MAX_SCORE`; the `{q}_RELEVANCE` record is the first row, appearing
before the question body row (the second row), while `{q}_SCORE`,
`{q}_INT_SCORE` and `{q}_MAX_SCORE` appear, in that order, after the
body row. -/
theorem C5_aux_records (q : Question) (item : XLSFormItem)
    (_hscored : q.scoring_logic.isSome = true)
    (h : serialize_question q = .ok item)
    (hfresh : ∀ sq ∈ q.sub_questions, sub_lowering_fresh q.id sq) :
    aux_names_of q.id item.records = score_aux_names q.id ∧
    ∃ r0 body rest, item.records = r0 :: body :: rest ∧
      r0.name = some (q.id ++ "_RELEVANCE") ∧
      aux_names_of q.id rest =
        [q.id ++ "_SCORE", q.id ++ "_INT_SCORE", q.id ++ "_MAX_SCORE"] := by
  have hrelname : (create_question_relevance_record q).name =
    some (q.id ++ "_RELEVANCE") := rfl
  have hintname : (create_question_int_score_record q).name =
    some (q.id ++ "_INT_SCORE") := rfl
  have hmaxname : (create_question_max_score_record q).name =
    some (q.id ++ "_MAX_SCORE") := rfl
  have hbodyid : ∀ n : String, some q.id = some n → is_aux_name q.id n = false := by
    intro n hn
    simp only [Option.some.injEq] at hn
    rw [← hn]
    exact is_aux_name_id q.id
  have hsimple : ∀ body sr : XLSFormRecord,
      create_question_score_record q = .ok sr →
      (∀ n, body.name = some n → is_aux_name q.id n = false) →
      item.records = [create_question_relevance_record q, body, sr,
        create_question_int_score_record q, create_question_max_score_record q] →
      aux_names_of q.id item.records = score_aux_names q.id ∧
      ∃ r0 body' rest, item.records = r0 :: body' :: rest ∧
        r0.name = some (q.id ++ "_RELEVANCE") ∧
        aux_names_of q.id rest =
          [q.id ++ "_SCORE", q.id ++ "_INT_SCORE", q.id ++ "_MAX_SCORE"] := by
    intro body sr hsc hbody hrec
    obtain ⟨se, _, hsr⟩ := create_score_ok q sr hsc
    have hsrname : sr.name = some (q.id ++ "_SCORE") := by
      rw [hsr]
      rfl
    have hcore := aux_core q.id (create_question_relevance_record q) body sr
      (create_question_int_score_record q) (create_question_max_score_record q)
      [] [] [sr, create_question_int_score_record q, create_question_max_score_record q]
      (by simp) hrelname hsrname hintname hmaxname hbody (by simp) (by simp)
    rw [hrec]
    exact ⟨hcore.1, _, body, _, rfl, hrelname, hcore.2⟩
  rw [serialize_question_unfold q] at h
  cases hq : q.question_type <;> rw [hq] at h
  case BOOL =>
    obtain ⟨sr, hsc, hrec, _⟩ := serialize_bool_shape q item h
    exact hsimple _ sr hsc hbodyid hrec
  case COUNT =>
    obtain ⟨sr, hsc, hrec, _⟩ := serialize_count_shape q item h
    exact hsimple _ sr hsc hbodyid hrec
  case MULTI =>
    obtain ⟨sr, hsc, hrec⟩ := serialize_multi_shape q item h
    exact hsimple _ sr hsc hbodyid hrec
  case RATE =>
    obtain ⟨sr, hsc, hrec, _⟩ := serialize_rate_shape q item h
    exact hsimple _ sr hsc hbodyid hrec
  case SELECT =>
    obtain ⟨sr, hsc, hrec⟩ := serialize_select_shape q item h
    exact hsimple _ sr hsc hbodyid hrec
  case PERC =>
    obtain ⟨den, num, sr, hden, hnum, hsc, hrec⟩ := serialize_perc_shape q item h
    obtain ⟨se, _, hsr⟩ := create_score_ok q sr hsc
    have hsrname : sr.name = some (q.id ++ "_SCORE") := by rw [hsr]; rfl
    have hdenmem : den ∈ q.sub_questions := List.mem_of_find?_eq_some hden
    have hnummem : num ∈ q.sub_questions := List.mem_of_find?_eq_some hnum
    have hmid : ∀ r ∈ [perc_input_record num, perc_input_record den,
        perc_value_record q num den, perc_note_record q],
        ∀ n, r.name = some n → is_aux_name q.id n = false := by
      intro r hr n hn
      simp only [List.mem_cons, List.not_mem_nil, or_false] at hr
      rcases hr with rfl | rfl | rfl | rfl
      · have hn2 : some num.id = some n := hn
        simp only [Option.some.injEq] at hn2
        rw [← hn2]
        exact (hfresh num hnummem).1
      · have hn2 : some den.id = some n := hn
        simp only [Option.some.injEq] at hn2
        rw [← hn2]
        exact (hfresh den hdenmem).1
      · have hn2 : some q.id = some n := hn
        simp only [Option.some.injEq] at hn2
        rw [← hn2]
        exact is_aux_name_id q.id
      · have hn2 : some (q.id ++ "_PERC_CALC_DISPLAY") = some n := hn
        simp only [Option.some.injEq] at hn2
        rw [← hn2]
        exact is_aux_name_suffix_false q.id "_PERC_CALC_DISPLAY"
          (by decide) (by decide) (by decide) (by decide)
    have hcore := aux_core q.id (create_question_relevance_record q)
      (perc_group_record q)
      sr (create_question_int_score_record q) (create_question_max_score_record q)
      [perc_input_record num, perc_input_record den,
       perc_value_record q num den, perc_note_record q]
      [end_group_record] _ rfl hrelname hsrname hintname hmaxname
      (by intro n hn
          have hn2 : some (q.id ++ "_PERC_GRP") = some n := hn
          simp only [Option.some.injEq] at hn2
          rw [← hn2]
          exact is_aux_name_suffix_false q.id "_PERC_GRP"
            (by decide) (by decide) (by decide) (by decide))
      hmid (by simp [end_group_record])
    rw [hrec]
    refine ⟨?_, _, _, _, rfl, hrelname, ?_⟩
    · have heq := hcore.1
      simpa using heq
    · have heq := hcore.2
      simpa using heq
  all_goals {
    have hit2 : (if q.sub_questions.isEmpty then serialize_generic_simple_question q
        else
          (serialize_question_list q.sub_questions) >>= fun subItems =>
            (create_question_score_record q) >>= fun scoreRec =>
              Except.ok
                ({ records :=
                    [create_question_relevance_record q, compound_group_record q] ++
                    (subItems.map XLSFormItem.records).flatten ++
                    [scoreRec,
                     create_question_int_score_record q,
                     create_question_max_score_record q,
                     end_group_record]
                   choices := (subItems.map XLSFormItem.choices).flatten } : XLSFormItem)) =
        .ok item := h
    by_cases hsub : q.sub_questions.isEmpty
    · rw [if_pos hsub] at hit2
      obtain ⟨sr, hsc, hrec, _⟩ := serialize_generic_simple_shape q item hit2
      exact hsimple _ sr hsc hbodyid hrec
    · rw [if_neg hsub] at hit2
      obtain ⟨subItems, sr, hsl, hsc, hrec, _⟩ := serialize_compound_shape q item hit2
      obtain ⟨se, _, hsr⟩ := create_score_ok q sr hsc
      have hsrname : sr.name = some (q.id ++ "_SCORE") := by rw [hsr]; rfl
      have hmid : ∀ r ∈ (subItems.map XLSFormItem.records).flatten,
          ∀ n, r.name = some n → is_aux_name q.id n = false := by
        intro r hr n hn
        obtain ⟨recs, hrecs, hrmem⟩ := List.mem_flatten.mp hr
        obtain ⟨it', hit', hreceq⟩ := List.mem_map.mp hrecs
        obtain ⟨sq, hsq, hser⟩ := serialize_question_list_mem _ _ hsl it' hit'
        refine (hfresh sq hsq).2 it' hser r ?_ n hn
        rw [hreceq]
        exact hrmem
      have hcore := aux_core q.id (create_question_relevance_record q)
        (compound_group_record q)
        sr (create_question_int_score_record q) (create_question_max_score_record q)
        ((subItems.map XLSFormItem.records).flatten) [end_group_record] _ rfl
        hrelname hsrname hintname hmaxname hbodyid hmid (by simp [end_group_record])
      rw [hrec]
      refine ⟨?_, _, _, _, rfl, hrelname, ?_⟩
      · have heq := hcore.1
        simpa using heq
      · have heq := hcore.2
        simpa using heq }

/-- The concrete scored `BOOL` question used against C5: id `Q5` with the
two-rule scoring string `If Y = Red ; If N = Green`. -/
def c5q : Question :=
  .mk "Q5" "lbl" .BOOL .BOOLEAN [] none (some "If Y = Red ; If N = Green") [] false none

/-- C5 counterexample: for the scored question `Q5` the auxiliary records
appear as `Q5_RELEVANCE`, then the body, then `Q5_SCORE`, `Q5_INT_SCORE`,
`Q5_MAX_SCORE` — the `Q5_RELEVANCE` record is the first row, before the
body, so the four do not all appear after the body row in the claimed
order SCORE, INT_SCORE, MAX_SCORE, RELEVANCE. -/
theorem C5_counterexample :
    (serialize_question c5q).map (fun it => it.records.filterMap XLSFormRecord.name) =
      .ok ["Q5_RELEVANCE", "Q5", "Q5_SCORE", "Q5_INT_SCORE", "Q5_MAX_SCORE"] ∧
    (serialize_question c5q).map (fun it => aux_names_of "Q5" it.records) ≠
      .ok ["Q5_SCORE", "Q5_INT_SCORE", "Q5_MAX_SCORE", "Q5_RELEVANCE"] ∧
    (serialize_question c5q).map (fun it => it.records.head?.bind XLSFormRecord.name) =
      .ok (some "Q5_RELEVANCE") := by
  refine ⟨by decide, by decide, by decide⟩

/-- C5 witness: the amended auxiliary-record property applied to the
concrete scored question `Q5`. -/
theorem C5_witness :
    ∃ item, serialize_question c5q = .ok item ∧
      aux_names_of c5q.id item.records = score_aux_names c5q.id ∧
      ∃ r0 body rest, item.records = r0 :: body :: rest ∧
        r0.name = some (c5q.id ++ "_RELEVANCE") ∧
        aux_names_of c5q.id rest =
          [c5q.id ++ "_SCORE", c5q.id ++ "_INT_SCORE", c5q.id ++ "_MAX_SCORE"] := by
  have hok : (serialize_question c5q).isOk = true := by decide
  rcases hf : serialize_question c5q with e | item
  · rw [hf] at hok
    simp [Except.isOk, Except.toBool] at hok
  · have h := C5_aux_records c5q item (by decide) hf
      (by intro sq hsq; exact absurd hsq (by simp [c5q, Question.sub_questions]))
    exact ⟨item, rfl, h.1, h.2⟩

end Sghi
